import Mathlib

/-!
# Verification of the `strong_typing` typed codec engine

A shallow embedding of the type-driven serializer/deserializer factories of the
`strong_typing` Python library (`src/strong_typing/serializer.py` and
`src/strong_typing/deserializer.py`), together with theorems settling the
behavioural claims about codec construction, record (de)serialization,
union-alternative trial, and timestamp/time wire conventions.

Conventions of the embedding:
* JSON values are the inductive `Json`; Python runtime values relevant to the
  codecs are the inductive `PyValue`.
* Python exceptions raised by the codecs are the inductive `JsonError`.
  The repository's `exception.py` is not under `src/`; the constructors are
  modelled from the spec's error taxonomy (§4.5): `JsonKeyError` and
  `JsonTypeError` are the shape-mismatch class, `JsonValueError` the semantic
  class, and `pyErr` stands for a builtin `TypeError`/`ValueError` raised by a
  library helper (e.g. `fromisoformat`, enum value lookup).
* Fallible operations return `Except`; raising an exception is `.error`.
-/

namespace StrongTyping

/-- A JSON value, as produced by Python's `json` module: `null`, booleans,
integral numbers, strings, arrays and objects (objects keep key order, as
Python dictionaries do).  Floating-point numbers are outside the scope of the
claims and are not modelled. -/
inductive Json where
  | null : Json
  | bool (b : Bool) : Json
  | num (n : Int) : Json
  | str (s : String) : Json
  | arr (items : List Json) : Json
  | obj (members : List (String × Json)) : Json
  deriving Repr

/-- A primitive constant value, as can appear as an enumeration member value or
inside a `Literal[...]` type. -/
inductive Lit where
  | lBool (b : Bool) : Lit
  | lInt (n : Int) : Lit
  | lStr (s : String) : Lit
  deriving Repr, DecidableEq

/-- A Python `datetime.time` value: clock fields plus an optional UTC offset in
minutes (`tzinfo`); `none` is a naive time. Fractional seconds are not
modelled. -/
structure PyTime where
  hour : Nat
  minute : Nat
  second : Nat
  tz : Option Int
  deriving Repr, DecidableEq

/-- A Python `datetime.datetime` value: calendar and clock fields plus an
optional UTC offset in minutes (`tzinfo`); `none` is a naive timestamp.
Fractional seconds are not modelled. -/
structure PyDateTime where
  year : Nat
  month : Nat
  day : Nat
  hour : Nat
  minute : Nat
  second : Nat
  tz : Option Int
  deriving Repr, DecidableEq

/-- A Python runtime value of the kinds the claims exercise.  A record value
(`vRecord`) is a dataclass / annotated-class / named-tuple instance: the class
name together with the field-name-to-value assignment, in field declaration
order.  A dictionary value keeps its keys as Python values (strings or
enumeration members). -/
inductive PyValue where
  | vNone : PyValue
  | vBool (b : Bool) : PyValue
  | vInt (n : Int) : PyValue
  | vStr (s : String) : PyValue
  | vDateTime (dt : PyDateTime) : PyValue
  | vTime (t : PyTime) : PyValue
  | vEnum (ename : String) (value : Lit) : PyValue
  | vList (items : List PyValue) : PyValue
  | vTuple (items : List PyValue) : PyValue
  | vDict (entries : List (PyValue × PyValue)) : PyValue
  | vRecord (cname : String) (fields : List (String × PyValue)) : PyValue
  deriving Repr

/-- Default specification of a dataclass field: no default, a default value
(`field.default`), or a default factory (`field.default_factory`, modelled by
the value the factory returns). -/
inductive DfltSpec where
  | noDflt : DfltSpec
  | dVal (v : PyValue) : DfltSpec
  | dFac (v : PyValue) : DfltSpec
  deriving Repr

/-- A Python type, as seen by `_create_serializer` / `_create_deserializer`.

`cls` is a proper class (`inspect.isclass` holds); its flags record exactly the
attributes the factories probe: `enum.Enum` subclassing together with the
member list (`enum_value_types` derives from it), named-tuple shape, presence
of the `to_json` / `from_json` conversion hooks, `dataclasses.is_dataclass`,
and the resolved type hints with per-field default specifications (defaults are
only consulted for dataclasses).  `prim` covers the well-known leaf types the
claims need; `bare*` are the unparameterized `list`/`dict`/`set`/`tuple`;
`gen*` are subscripted generics.  Kinds of the source not exercised by any
claim (`float`, `bytes`, `date`, `uuid`, `Annotated`, `Set[T]`) are omitted
from the model. -/
inductive PyType where
  | pNone : PyType
  | pBool : PyType
  | pInt : PyType
  | pStr : PyType
  | pDateTime : PyType
  | pTime : PyType
  | bareList : PyType
  | bareDict : PyType
  | bareSet : PyType
  | bareTuple : PyType
  | genList (item : PyType) : PyType
  | genDict (key value : PyType) : PyType
  | genTuple (items : List PyType) : PyType
  | genUnion (members : List PyType) : PyType
  | genLiteral (values : List Lit) : PyType
  | cls (name : String) (enumMembers : Option (List (String × Lit)))
      (isNamedTuple : Bool) (hasToJson : Bool) (hasFromJson : Bool)
      (isDataclass : Bool) (hints : List (String × DfltSpec × PyType)) : PyType
  deriving Repr

namespace PyType

mutual

/-- `strong_typing.name.python_type_to_str` (the module `name.py` is not under
`src/`). Modelled from the spec: failure messages "report the offending type
name"; renders a type's display name. -/
def typeName : PyType → String
  | pNone => "None"
  | pBool => "bool"
  | pInt => "int"
  | pStr => "str"
  | pDateTime => "datetime"
  | pTime => "time"
  | bareList => "list"
  | bareDict => "dict"
  | bareSet => "set"
  | bareTuple => "tuple"
  | genList i => "List[" ++ typeName i ++ "]"
  | genDict k v => "Dict[" ++ typeName k ++ ", " ++ typeName v ++ "]"
  | genTuple ts => "Tuple[" ++ String.intercalate ", " (typeNameList ts) ++ "]"
  | genUnion ts => "Union[" ++ String.intercalate ", " (typeNameList ts) ++ "]"
  | genLiteral _ => "Literal[...]"
  | cls n _ _ _ _ _ _ => n

/-- Renders each type of a list (helper of `typeName`). -/
def typeNameList : List PyType → List String
  | [] => []
  | t :: ts => typeName t :: typeNameList ts

end

end PyType

/-- Exceptions raised by the codecs.  The repository's `exception.py` is not
under `src/`; modelled from the spec (§4.5): `keyErr` is `JsonKeyError`
(missing required property / unrecognized property — shape class), `typeErr`
is `JsonTypeError` (JSON kind mismatch — shape class), `valueErr` is
`JsonValueError` (semantic violation), and `pyErr` is a builtin
`TypeError`/`ValueError` escaping from a helper (such as
`datetime.fromisoformat` or an enumeration value lookup); the messages carry
the f-string text built at the raise site. -/
inductive JsonError where
  | keyErr (msg : String) : JsonError
  | typeErr (msg : String) : JsonError
  | valueErr (msg : String) : JsonError
  | pyErr (msg : String) : JsonError
  deriving Repr, DecidableEq

/-- `repr`-style rendering of a JSON value, standing for Python's `{data}`
interpolation of the received JSON value into failure messages. -/
def Json.render : Json → String
  | .null => "None"
  | .bool b => if b then "True" else "False"
  | .num n => toString n
  | .str s => "'" ++ s ++ "'"
  | .arr items => "[" ++ String.intercalate ", " (renderList items) ++ "]"
  | .obj members => "\x7b" ++ String.intercalate ", " (renderMembers members) ++ "\x7d"
where
  /-- Renders array items. -/
  renderList : List Json → List String
    | [] => []
    | j :: js => Json.render j :: renderList js
  /-- Renders object members. -/
  renderMembers : List (String × Json) → List String
    | [] => []
    | (k, j) :: ms => ("'" ++ k ++ "': " ++ Json.render j) :: renderMembers ms

/-- Looks up a key in a JSON object's member list (Python `name in data` /
`data[name]`): first binding wins. -/
def jsonLookup (members : List (String × Json)) (key : String) : Option Json :=
  match members with
  | [] => none
  | (k, v) :: rest => if k = key then some v else jsonLookup rest key

/-- Python `data.get(name)` on a parsed JSON object: `None` both when the key
is absent and when the key maps to JSON `null` (Python cannot tell the two
apart through `get`). -/
def jsonGet (members : List (String × Json)) (key : String) : Json :=
  match jsonLookup members key with
  | some v => v
  | none => Json.null

/-! ## Date/time wire format

`datetime.isoformat` / `datetime.fromisoformat` and their `time` counterparts,
modelled at second precision (no fractional seconds) with the pre-3.11
semantics the source code itself assumes: `fromisoformat` accepts exactly the
strings `isoformat` produces — in particular it does **not** accept a trailing
`Z` offset marker (the source comments: "Python's isoformat() does not support
military time zones like 'Zulu' for UTC"). -/

/-- The decimal digit denoted by a character, if any. -/
def charDigit (c : Char) : Option Nat :=
  if '0' ≤ c ∧ c ≤ '9' then some (c.toNat - '0'.toNat) else none

/-- Two-digit zero-padded decimal rendering (for values below 100). -/
def pad2 (n : Nat) : String :=
  String.mk [Nat.digitChar (n / 10 % 10), Nat.digitChar (n % 10)]

/-- Four-digit zero-padded decimal rendering (for values below 10000). -/
def pad4 (n : Nat) : String :=
  String.mk [Nat.digitChar (n / 1000 % 10), Nat.digitChar (n / 100 % 10),
    Nat.digitChar (n / 10 % 10), Nat.digitChar (n % 10)]

/-- `±HH:MM` rendering of a UTC offset given in minutes, as
`datetime.isoformat` prints a fixed-offset `tzinfo`. -/
def offsetSuffix (o : Int) : String :=
  if o < 0 then "-" ++ pad2 ((-o).toNat / 60) ++ ":" ++ pad2 ((-o).toNat % 60)
  else "+" ++ pad2 (o.toNat / 60) ++ ":" ++ pad2 (o.toNat % 60)

/-- `datetime.time.isoformat`: `HH:MM:SS`, followed by `±HH:MM` when the time
carries a UTC offset. -/
def PyTime.isoformat (t : PyTime) : String :=
  pad2 t.hour ++ ":" ++ pad2 t.minute ++ ":" ++ pad2 t.second ++
    (match t.tz with | none => "" | some o => offsetSuffix o)

/-- `datetime.datetime.isoformat`: `YYYY-MM-DDTHH:MM:SS`, followed by
`±HH:MM` when the timestamp carries a UTC offset. -/
def PyDateTime.isoformat (dt : PyDateTime) : String :=
  pad4 dt.year ++ "-" ++ pad2 dt.month ++ "-" ++ pad2 dt.day ++ "T" ++
    PyTime.isoformat ⟨dt.hour, dt.minute, dt.second, dt.tz⟩

/-- Parses the characters of a `HH:MM:SS[±HH:MM]` time string (the helper
behind the `fromisoformat` models); validates field ranges as Python does and
rejects every other shape — in particular a trailing `Z`. -/
def timeChars : List Char → Option PyTime
  | [h1, h2, ':', m1, m2, ':', s1, s2] => do
      let h := (← charDigit h1) * 10 + (← charDigit h2)
      let m := (← charDigit m1) * 10 + (← charDigit m2)
      let s := (← charDigit s1) * 10 + (← charDigit s2)
      if h < 24 ∧ m < 60 ∧ s < 60 then some ⟨h, m, s, none⟩ else none
  | [h1, h2, ':', m1, m2, ':', s1, s2, sign, o1, o2, ':', o3, o4] => do
      let h := (← charDigit h1) * 10 + (← charDigit h2)
      let m := (← charDigit m1) * 10 + (← charDigit m2)
      let s := (← charDigit s1) * 10 + (← charDigit s2)
      let oh := (← charDigit o1) * 10 + (← charDigit o2)
      let om := (← charDigit o3) * 10 + (← charDigit o4)
      let off : Int := oh * 60 + om
      if h < 24 ∧ m < 60 ∧ s < 60 ∧ oh < 24 ∧ om < 60 then
        match sign with
        | '+' => some ⟨h, m, s, some off⟩
        | '-' => some ⟨h, m, s, some (-off)⟩
        | _ => none
      else none
  | _ => none

/-- `datetime.time.fromisoformat` (pre-3.11 semantics, second precision). -/
def PyTime.fromisoformat (s : String) : Option PyTime :=
  timeChars s.data

/-- `datetime.datetime.fromisoformat` (pre-3.11 semantics, second precision):
`YYYY-MM-DD` optionally followed by a one-character separator and a
`HH:MM:SS[±HH:MM]` time part.  Day-of-month validation is approximated by
`day ≤ 31` (the per-month day counts play no role in any claim). -/
def PyDateTime.fromisoformat (s : String) : Option PyDateTime :=
  match s.data with
  | y1 :: y2 :: y3 :: y4 :: '-' :: mo1 :: mo2 :: '-' :: d1 :: d2 :: rest => do
      let y := ((← charDigit y1) * 10 + (← charDigit y2)) * 100 +
        ((← charDigit y3) * 10 + (← charDigit y4))
      let mo := (← charDigit mo1) * 10 + (← charDigit mo2)
      let d := (← charDigit d1) * 10 + (← charDigit d2)
      if 1 ≤ mo ∧ mo ≤ 12 ∧ 1 ≤ d ∧ d ≤ 31 then
        match rest with
        | [] => some ⟨y, mo, d, 0, 0, 0, none⟩
        | _sep :: timePart => do
            let t ← timeChars timePart
            some ⟨y, mo, d, t.hour, t.minute, t.second, t.tz⟩
      else none
  | _ => none

/-- The Python type of a primitive constant (`type(value)` for a literal or
enumeration member value). -/
inductive PrimTag where
  | tagBool : PrimTag
  | tagInt : PrimTag
  | tagStr : PrimTag
  deriving Repr, DecidableEq

/-- `type(value)` of a primitive constant. -/
def litTag : Lit → PrimTag
  | .lBool _ => .tagBool
  | .lInt _ => .tagInt
  | .lStr _ => .tagStr

/-- The `PyType` of a primitive constant (used by `LiteralSerializer` to pick
the generator for the shared underlying type). -/
def tagType : PrimTag → PyType
  | .tagBool => .pBool
  | .tagInt => .pInt
  | .tagStr => .pStr

/-- Direct JSON embedding of a primitive constant (an enumeration member's
`.value` is already JSON-representable). -/
def litToJson : Lit → Json
  | .lBool b => .bool b
  | .lInt n => .num n
  | .lStr s => .str s

/-- Distinct member-value types in definition order, via the set of types
already seen (helper of `uniqueTags`). -/
def uniqueTagsAux : List PrimTag → List PrimTag → List PrimTag
  | _, [] => []
  | seen, t :: ts =>
      if t ∈ seen then uniqueTagsAux seen ts
      else t :: uniqueTagsAux (t :: seen) ts

/-- Distinct member-value types in definition order:
`strong_typing.inspection.enum_value_types`
(`dict.fromkeys` keeps the first occurrence of each type). -/
def uniqueTags (l : List PrimTag) : List PrimTag :=
  uniqueTagsAux [] l

/-- `typ is type(None)` for the member scan of optional-type detection. -/
def PyType.isNoneType : PyType → Bool
  | .pNone => true
  | _ => false

/-- `strong_typing.inspection.is_type_optional`: a union one of whose members
is `NoneType`. -/
def PyType.isOptionalTy : PyType → Bool
  | .genUnion ms => ms.any PyType.isNoneType
  | _ => false

/-- `strong_typing.inspection.unwrap_optional_type`: rebuild the union from
the non-`None` members; `Union[T]` collapses to `T`. -/
def PyType.unwrapOptionalTy : PyType → PyType
  | .genUnion ms =>
      match ms.filter (fun t => ¬ t.isNoneType) with
      | [t] => t
      | ts => .genUnion ts
  | t => t

/-- Python `str.endswith` (via the underlying character list). -/
def pyEndsWith (s suffix : String) : Bool :=
  suffix.data.isSuffixOf s.data

/-- Python slicing `s[:-n]`: drop the last `n` characters. -/
def pyDropLast (s : String) (n : Nat) : String :=
  String.mk (dropLast' s.data n)
where
  /-- Drops the last `n` elements of a list. -/
  dropLast' (cs : List Char) (n : Nat) : List Char :=
    (cs.reverse.drop n).reverse

/-- Filtering a list never increases its `sizeOf` (used for the termination of
the factories, which recurse into `unwrap_optional_type` results). -/
theorem sizeOf_filter_le (p : PyType → Bool) (l : List PyType) :
    sizeOf (l.filter p) ≤ sizeOf l := by
  induction l with
  | nil => simp
  | cons a l ih =>
      by_cases h : p a
      · simp only [List.filter_cons, h, if_true]
        simp only [List.cons.sizeOf_spec]
        omega
      · simp only [List.filter_cons, h]
        simp only [Bool.false_eq_true, if_false, List.cons.sizeOf_spec]
        have : 0 ≤ sizeOf a := by positivity
        omega

/-- `unwrap_optional_type` yields a type no larger than its argument. -/
theorem sizeOf_unwrapOptionalTy_le (t : PyType) :
    sizeOf t.unwrapOptionalTy ≤ sizeOf t := by
  cases t
  case genUnion ms =>
    have h2 := sizeOf_filter_le (fun t => ¬ t.isNoneType) ms
    simp only [PyType.unwrapOptionalTy]
    split
    · next t' heq =>
        have hmem : t' ∈ ms.filter (fun t => ¬ t.isNoneType) := by
          rw [heq]; exact List.mem_singleton_self t'
        have h1 : sizeOf t' < sizeOf (ms.filter (fun t => ¬ t.isNoneType)) :=
          List.sizeOf_lt_of_mem hmem
        simp only [PyType.genUnion.sizeOf_spec]
        omega
    · next heq =>
        simp only [PyType.genUnion.sizeOf_spec, List.cons.sizeOf_spec]
        omega
  all_goals simp [PyType.unwrapOptionalTy]

/-- A construction-time failure of a codec factory: `typeError` is a builtin
`TypeError` raise, `jsonTypeError` a `JsonTypeError` raise (both abort
construction). -/
inductive CtorErr where
  | typeError (msg : String) : CtorErr
  | jsonTypeError (msg : String) : CtorErr
  deriving Repr, DecidableEq

/-- A serializer node, one constructor per `Serializer` subclass of
`serializer.py` that the model covers.  A field serializer entry is
`(field_name, property_name, generator)` as in `FieldSerializer`; custom nodes
record the owning class name (the hook body is user code outside the engine).
Subclasses for kinds outside the model (`float`, `bytes`, `date`, `uuid`,
`Set[T]`) are omitted. -/
inductive SNode where
  | noneSer : SNode
  | boolSer : SNode
  | intSer : SNode
  | strSer : SNode
  | dateTimeSer : SNode
  | timeSer : SNode
  | enumSer : SNode
  | untypedListSer : SNode
  | untypedDictSer : SNode
  | untypedSetSer : SNode
  | untypedTupleSer : SNode
  | typedListSer (child : SNode) : SNode
  | typedStrDictSer (child : SNode) : SNode
  | typedEnumDictSer (child : SNode) : SNode
  | typedTupleSer (children : List SNode) : SNode
  | unionSer : SNode
  | literalSer (child : SNode) : SNode
  | customSer (cname : String) : SNode
  | dataclassSer (cname : String) (fields : List (String × String × SNode)) : SNode
  | typedNamedTupleSer (cname : String) (fields : List (String × String × SNode)) : SNode
  | untypedNamedTupleSer (cname : String) : SNode
  | typedClassSer (cname : String) (fields : List (String × String × SNode)) : SNode
  | untypedClassSer : SNode
  deriving Repr

/-- Requiredness of a record field plan, mirroring which `FieldDeserializer`
subclass `DataclassDeserializer.__init__` (or its named-tuple / typed-class
siblings) instantiates: `RequiredFieldDeserializer`,
`OptionalFieldDeserializer`, `DefaultFieldDeserializer` (with
`field.default`), or `DefaultFactoryFieldDeserializer` (modelled by the value
the factory returns). -/
inductive FPKind where
  | required : FPKind
  | optionalF : FPKind
  | dflt (v : PyValue) : FPKind
  | dfltFactory (v : PyValue) : FPKind
  deriving Repr

/-- The key-conversion step `self.key_type(key)` of `DictDeserializer.parse`:
the key type is `str` (identity) or an enumeration (member lookup by value). -/
inductive DictKeyKind where
  | kStr : DictKeyKind
  | kEnum (ename : String) (members : List (String × Lit)) : DictKeyKind
  deriving Repr

/-- A deserializer node, one constructor per `Deserializer` subclass of
`deserializer.py` that the model covers.  Container nodes carry the rendered
type names their failure messages interpolate.  A field plan entry is
`(property_name, field_name, kind, child)`, mirroring `FieldDeserializer`.
Subclasses for kinds outside the model (`float`, `bytes`, `date`, `uuid`,
`Set[T]`) are omitted. -/
inductive DNode where
  | noneDes : DNode
  | boolDes : DNode
  | intDes : DNode
  | strDes : DNode
  | dateTimeDes : DNode
  | timeDes : DNode
  | listDes (itemName : String) (child : DNode) : DNode
  | dictDes (containerName : String) (key : DictKeyKind) (child : DNode) : DNode
  | tupleDes (containerName : String) (children : List DNode) : DNode
  | unionDes (members : List (String × DNode)) : DNode
  | enumDes (ename : String) (emembers : List (String × Lit)) : DNode
  | customDes (cname : String) : DNode
  | dataclassDes (cname : String) (plans : List (String × String × FPKind × DNode)) : DNode
  | namedTupleDes (cname : String) (plans : List (String × String × FPKind × DNode)) : DNode
  | typedClassDes (cname : String) (plans : List (String × String × FPKind × DNode)) : DNode
  deriving Repr

/-- `strong_typing.mapping.python_field_to_json_property` (the module
`mapping.py` is not under `src/`).  Modelled from the spec (§4.2):
"resolve `external_name` via alias metadata else identifier unchanged";
alias annotations are outside the model, so the identifier is unchanged. -/
def fieldToProperty (fieldName : String) : String := fieldName

/-- Python `repr` of the class object of a primitive type, as interpolated
into the enumeration-key-type failure messages. -/
def primTagRepr : PrimTag → String
  | .tagBool => "<class 'bool'>"
  | .tagInt => "<class 'int'>"
  | .tagStr => "<class 'str'>"

/-- Python `repr` of a primitive constant, as interpolated into the
`LiteralSerializer` failure message. -/
def litRepr : Lit → String
  | .lBool b => if b then "True" else "False"
  | .lInt n => toString n
  | .lStr s => "'" ++ s ++ "'"

/-- `inspect.isclass`: primitive types, the bare containers and proper classes
are classes; subscripted generics and special forms are not. -/
def PyType.isClassType : PyType → Bool
  | .genList _ | .genDict _ _ | .genTuple _ | .genUnion _ | .genLiteral _ => false
  | _ => true

/-- `strong_typing.serializer._create_serializer` (together with the
constructor bodies of the `Serializer` subclasses it instantiates, which run
at construction time): dispatches on the type and recursively builds the
serializer node tree.  Branches for kinds outside the model (`float`,
`bytes`, `date`, `uuid`, `Set[T]`, `Annotated`, the function/module/method
/type classes) are omitted; the memoizing `_fetch_serializer` wrapper is the
identity on the result and is not modelled separately. -/
def createSerializer : PyType → Except CtorErr SNode
  | .pNone => .ok .noneSer
  | .pBool => .ok .boolSer
  | .pInt => .ok .intSer
  | .pStr => .ok .strSer
  | .pDateTime => .ok .dateTimeSer
  | .pTime => .ok .timeSer
  | .bareList => .ok .untypedListSer
  | .bareDict => .ok .untypedDictSer
  | .bareSet => .ok .untypedSetSer
  | .bareTuple => .ok .untypedTupleSer
  | .genList i => (createSerializer i).map .typedListSer
  | .genDict k v =>
      match k with
      | .pStr => (createSerializer v).map .typedStrDictSer
      | .cls _ (some ms) _ _ _ _ _ =>
          -- `TypedEnumDictSerializer.__init__`: the value serializer is built
          -- by `super().__init__` before the key checks run.
          (createSerializer v).bind fun child =>
            match uniqueTags (ms.map (fun m => litTag m.2)) with
            | [tg] =>
                if tg = .tagStr then .ok (.typedEnumDictSer child)
                else .error (.jsonTypeError
                  "invalid enumeration key type, expected `enum.Enum` with string values")
            | tgs => .error (.jsonTypeError
                ("invalid key type, enumerations must have a consistent member value type but several types found: ["
                  ++ String.intercalate ", " (tgs.map primTagRepr) ++ "]"))
      | k =>
          -- Neither `str` nor an enumeration class.  For a non-class key the
          -- `issubclass` probe itself raises; for a class key no `dict`
          -- branch returns, control falls through every remaining check of
          -- `_create_serializer` (annotated, `to_json`, enum, dataclass,
          -- named tuple, exotic) and `get_resolved_hints` finally raises
          -- `TypeError` on the subscripted generic.
          if k.isClassType then
            .error (.typeError (PyType.typeName (.genDict k v)
              ++ " is not a module, class, method, or function."))
          else .error (.typeError "issubclass() arg 1 must be a class")
  | .genTuple ts =>
      (ts.attach.mapM (fun x => createSerializer x.1)).map .typedTupleSer
  | .genUnion _ => .ok .unionSer
  | .genLiteral vals =>
      match uniqueTags (vals.map litTag) with
      | [tg] =>
          -- `create_serializer(literal_type)` applied to the shared primitive
          -- type, with that (constant-argument) recursive call unfolded.
          .ok (.literalSer (match tg with
            | .tagBool => .boolSer
            | .tagInt => .intSer
            | .tagStr => .strSer))
      | _ => .error (.typeError
          ("type `Literal[" ++ String.intercalate ", " (vals.map litRepr)
            ++ "]` expects consistent literal value types but got: ("
            ++ String.intercalate ", " (vals.map (fun v => primTagRepr (litTag v))) ++ ")"))
  | .cls name em nt toJ _ dc hints =>
      if toJ then .ok (.customSer name)
      else if em.isSome then .ok .enumSer
      else if dc then
        (hints.attach.mapM (fun x =>
          (createSerializer x.1.2.2).map
            (fun sn => (x.1.1, fieldToProperty x.1.1, sn)))).map
          (.dataclassSer name)
      else if nt then
        if hints.isEmpty then .ok (.untypedNamedTupleSer name)
        else
          (hints.attach.mapM (fun x =>
            (createSerializer x.1.2.2).map
              (fun sn => (x.1.1, fieldToProperty x.1.1, sn)))).map
            (.typedNamedTupleSer name)
      else if hints.isEmpty then .ok .untypedClassSer
      else
        (hints.attach.mapM (fun x =>
          (createSerializer x.1.2.2).map
            (fun sn => (x.1.1, fieldToProperty x.1.1, sn)))).map
          (.typedClassSer name)
termination_by t => sizeOf t
decreasing_by
  all_goals simp_wf
  all_goals first
    | omega
    | (have h := List.sizeOf_lt_of_mem x.2; omega)
    | (obtain ⟨⟨fn, d, fty⟩, hx⟩ := x
       have h := List.sizeOf_lt_of_mem hx
       simp only [Prod.mk.sizeOf_spec] at h
       simp only
       omega)

/-- `strong_typing.deserializer._create_deserializer` (together with the
constructor bodies of the `Deserializer` subclasses it instantiates, which run
at construction time): dispatches on the type, rejects the bare container
types with `TypeError`, and recursively builds the deserializer node tree.
Branches for kinds outside the model (`float`, `bytes`, `date`, `uuid`,
`Set[T]`, `Annotated`) are omitted; the memoizing `_fetch_deserializer`
wrapper is the identity on the result and is not modelled separately. -/
def createDeserializer : PyType → Except CtorErr DNode
  | .pNone => .ok .noneDes
  | .pBool => .ok .boolDes
  | .pInt => .ok .intDes
  | .pStr => .ok .strDes
  | .pDateTime => .ok .dateTimeDes
  | .pTime => .ok .timeDes
  | .bareList => .error (.typeError
      "explicit item type required: use `List[T]` instead of `list`")
  | .bareDict => .error (.typeError
      "explicit key and value types required: use `Dict[K, V]` instead of `dict`")
  | .bareSet => .error (.typeError
      "explicit member type required: use `Set[T]` instead of `set`")
  | .bareTuple => .error (.typeError
      "explicit item type list required: use `Tuple[T, ...]` instead of `tuple`")
  | .genList i => (createDeserializer i).map (.listDes (PyType.typeName i))
  | .genDict k v =>
      -- `DictDeserializer.__init__` runs `_check_key_type` before building
      -- the value deserializer.
      match k with
      | .pStr => (createDeserializer v).map
          (.dictDes (PyType.typeName (.genDict k v)) .kStr)
      | .cls en (some ms) _ _ _ _ _ =>
          match uniqueTags (ms.map (fun m => litTag m.2)) with
          | [_tg] =>
              -- Source bug, preserved by the model: when the single member
              -- value type is not `str`, the intended failure message is an
              -- f-string expression statement without a `raise`
              -- (deserializer.py lines 203-204), so construction proceeds.
              (createDeserializer v).map
                (.dictDes (PyType.typeName (.genDict k v)) (.kEnum en ms))
          | tgs => .error (.jsonTypeError
              ("type `" ++ PyType.typeName (.genDict k v)
                ++ "` has invalid key type, enumerations must have a consistent member value type but several types found: ["
                ++ String.intercalate ", " (tgs.map primTagRepr) ++ "]"))
      | k =>
          -- Neither `str` nor an enumeration class: for a class key the
          -- final `raise JsonTypeError` of `_check_key_type` fires; for a
          -- non-class key the `issubclass` probe itself raises `TypeError`.
          if k.isClassType then
            .error (.jsonTypeError ("`type `" ++ PyType.typeName (.genDict k v)
              ++ "` has invalid key type, expected `str` or `enum.Enum` with string values"))
          else .error (.typeError "issubclass() arg 1 must be a class")
  | .genTuple ts =>
      (ts.attach.mapM (fun x => createDeserializer x.1)).map
        (.tupleDes (PyType.typeName (.genTuple ts)))
  | .genUnion ms =>
      (ms.attach.mapM (fun x =>
        (createDeserializer x.1).map (fun d => (PyType.typeName x.1, d)))).map
        .unionDes
  | .genLiteral vals =>
      -- `_create_deserializer` has no `Literal` branch: the special form
      -- falls through every generic check to `if not inspect.isclass(typ)`
      -- and construction raises `TypeError`.
      .error (.typeError ("unable to de-serialize unrecognized type: Literal["
        ++ String.intercalate ", " (vals.map litRepr) ++ "]"))
  | .cls name em nt _ fromJ dc hints =>
      match em with
      | some ms =>
          -- `issubclass(typ, enum.Enum)` is probed before the named-tuple
          -- shape and before the `from_json` hook.
          .ok (.enumDes name ms)
      | none =>
          if nt then
            -- `NamedTupleDeserializer`: every resolved hint becomes a
            -- `RequiredFieldDeserializer`; optionality and defaults are not
            -- consulted, and the property name is the field name itself.
            (hints.attach.mapM (fun x =>
              (createDeserializer x.1.2.2).map
                (fun d => (x.1.1, x.1.1, FPKind.required, d)))).map
              (.namedTupleDes name)
          else if fromJ then .ok (.customDes name)
          else if dc then
            -- `DataclassDeserializer`: strip one `Optional` layer, then pick
            -- the field deserializer by default / default factory /
            -- optionality / requiredness, in that order.
            (hints.attach.mapM (fun x =>
              (createDeserializer
                  (if x.1.2.2.isOptionalTy then x.1.2.2.unwrapOptionalTy
                   else x.1.2.2)).map
                (fun child =>
                  (fieldToProperty x.1.1, x.1.1,
                   (match x.1.2.1 with
                    | .dVal v => FPKind.dflt v
                    | .dFac v => FPKind.dfltFactory v
                    | .noDflt =>
                        if x.1.2.2.isOptionalTy then FPKind.optionalF
                        else FPKind.required),
                   child)))).map (.dataclassDes name)
          else
            -- `TypedClassDeserializer`: as the dataclass case but defaults
            -- are never consulted.
            (hints.attach.mapM (fun x =>
              (createDeserializer
                  (if x.1.2.2.isOptionalTy then x.1.2.2.unwrapOptionalTy
                   else x.1.2.2)).map
                (fun child =>
                  (fieldToProperty x.1.1, x.1.1,
                   (if x.1.2.2.isOptionalTy then FPKind.optionalF
                    else FPKind.required),
                   child)))).map (.typedClassDes name)
termination_by t => sizeOf t
decreasing_by
  all_goals simp_wf
  all_goals first
    | omega
    | (have h := List.sizeOf_lt_of_mem x.2; omega)
    | (obtain ⟨⟨fn, d, fty⟩, hx⟩ := x
       have h := List.sizeOf_lt_of_mem hx
       simp only [Prod.mk.sizeOf_spec] at h
       have h2 := sizeOf_unwrapOptionalTy_le fty
       simp only
       (try split) <;> omega)

/-- `str(datetime)` (space-separated), as interpolated into the
naive-timestamp failure message of `DateTimeSerializer.generate`. -/
def PyDateTime.pyStr (dt : PyDateTime) : String :=
  pad4 dt.year ++ "-" ++ pad2 dt.month ++ "-" ++ pad2 dt.day ++ " " ++
    pad2 dt.hour ++ ":" ++ pad2 dt.minute ++ ":" ++ pad2 dt.second

/-- `DateTimeSerializer.generate`: reject a naive timestamp with
`JsonValueError`; render via `isoformat` and rewrite a trailing `+00:00`
into the `Z` marker. -/
def serializeDateTime (dt : PyDateTime) : Except JsonError Json :=
  match dt.tz with
  | none => .error (.valueErr
      ("timestamp lacks explicit time zone designator: " ++ dt.pyStr))
  | some _ =>
      let fmt := dt.isoformat
      .ok (.str (if pyEndsWith fmt "+00:00" then pyDropLast fmt 6 ++ "Z" else fmt))

/-- `serializer.object_to_json`: dynamic dispatch on the runtime type of the
value (`create_serializer(type(obj)).generate(obj)`), as `UnionSerializer`
and the untyped container serializers perform it.  The model covers the
value kinds a claim can reach dynamically; a class instance in dynamic
position would require the runtime class registry and is outside the model
(marked by a `pyErr`), as are `str()` of non-string dictionary keys. -/
def serializeDyn : PyValue → Except JsonError Json
  | .vNone => .ok .null
  | .vBool b => .ok (.bool b)
  | .vInt n => .ok (.num n)
  | .vStr s => .ok (.str s)
  | .vDateTime dt => serializeDateTime dt
  | .vTime t => .ok (.str t.isoformat)
  | .vEnum _ l => .ok (litToJson l)
  | .vList items => (items.attach.mapM (fun x => serializeDyn x.1)).map .arr
  | .vTuple items => (items.attach.mapM (fun x => serializeDyn x.1)).map .arr
  | .vDict entries =>
      (entries.attach.mapM (fun (x : {e // e ∈ entries}) =>
        match x.1.1 with
        | .vStr s => (serializeDyn x.1.2).map (fun j => (s, j))
        | .vEnum _ (.lStr s) => (serializeDyn x.1.2).map (fun j => (s, j))
        | _ => .error (.pyErr "dictionary key not modelled in dynamic position"))).map
        .obj
  | .vRecord cname _ =>
      .error (.pyErr ("dynamic serialization of class instance not modelled: " ++ cname))
termination_by v => sizeOf v
decreasing_by
  all_goals simp_wf
  all_goals first
    | (have h := List.sizeOf_lt_of_mem x.2; omega)
    | (obtain ⟨⟨k, v⟩, hx⟩ := x
       have h := List.sizeOf_lt_of_mem hx
       simp only [Prod.mk.sizeOf_spec] at h
       simp only
       omega)

/-- Python `repr` of a list of strings (the `{unassigned_names}`
interpolation of the unrecognized-fields failure message). -/
def pyStrListRepr (names : List String) : String :=
  "[" ++ String.intercalate ", " (names.map (fun s => "'" ++ s ++ "'")) ++ "]"

/-- The trial loop of `UnionDeserializer.parse`, replayed over the
per-alternative outcomes (parsing is pure, so evaluating the alternatives
eagerly and replaying the loop is extensionally the source's lazy loop):
return the first success, swallow only `JsonKeyError`/`JsonTypeError`
failures, let any other failure propagate immediately, and after exhausting
the alternatives raise the aggregate `JsonKeyError` naming every member type
and the original input. -/
def unionResolve (allNames : List String) (data : Json) :
    List (Except JsonError PyValue) → Except JsonError PyValue
  | [] => .error (.keyErr ("type `Union[" ++ String.intercalate ", " allNames
      ++ "]` could not be instantiated from: " ++ Json.render data))
  | r :: rest =>
      match r with
      | .ok v => .ok v
      | .error (.keyErr _) => unionResolve allNames data rest
      | .error (.typeErr _) => unionResolve allNames data rest
      | .error e => .error e

/-- A JSON scalar as a primitive constant (for enumeration value lookup). -/
def jsonToLit : Json → Option Lit
  | .bool b => some (.lBool b)
  | .num n => some (.lInt n)
  | .str s => some (.lStr s)
  | _ => none

/-- The key-conversion step `self.key_type(key)` of `DictDeserializer.parse`:
`str(key)` is the identity on the JSON object key; an enumeration key type
performs a member lookup by value, raising `ValueError` at value time when no
member value equals the key string. -/
def dictKeyConv (kind : DictKeyKind) (key : String) : Except JsonError PyValue :=
  match kind with
  | .kStr => .ok (.vStr key)
  | .kEnum en ms =>
      match ms.find? (fun m => m.2 = .lStr key) with
      | some m => .ok (.vEnum en m.2)
      | none => .error (.pyErr ("'" ++ key ++ "' is not a valid " ++ en))

/-- `getattr(obj, field_name)` on a record value: look the field up in the
instance's field assignment (first binding wins). -/
def jsonLookupValue (fields : List (String × PyValue)) (name : String) :
    Option PyValue :=
  match fields with
  | [] => none
  | (k, v) :: rest => if k = name then some v else jsonLookupValue rest name

/-- The per-node serialization step `Serializer.generate` of each node kind
the model covers.  The identity serializers for the fundamental types return
their argument unchanged (no validation); a value whose runtime kind a node's
body could not handle in Python (an `AttributeError`, a `TypeError` from
iteration, etc.) is a `pyErr`, as is reaching a node kind whose behaviour is
outside the model (`customSer` runs user code; the untyped class/named-tuple
serializers enumerate `dir(obj)`).

Record nodes implement `TypedClassSerializer.generate` /
`FieldSerializer.generate_field`: read each field in plan order and emit a
property only when the runtime value is not `None`. -/
def generateNode : SNode → PyValue → Except JsonError Json
  | .noneSer, _ => .ok .null
  | .boolSer, v | .intSer, v | .strSer, v =>
      (match v with
       | .vNone => .ok .null
       | .vBool b => .ok (.bool b)
       | .vInt n => .ok (.num n)
       | .vStr s => .ok (.str s)
       | _ => .error (.pyErr "non-JSON value returned unchanged: outside the model"))
  | .dateTimeSer, v =>
      (match v with
       | .vDateTime dt => serializeDateTime dt
       | _ => .error (.pyErr "AttributeError: tzinfo"))
  | .timeSer, v =>
      (match v with
       | .vTime t => .ok (.str t.isoformat)
       | _ => .error (.pyErr "AttributeError: isoformat"))
  | .enumSer, v =>
      (match v with
       | .vEnum _ l => .ok (litToJson l)
       | _ => .error (.pyErr "AttributeError: value"))
  | .untypedListSer, v | .untypedTupleSer, v =>
      (match v with
       | .vList items => (items.attach.mapM (fun x => serializeDyn x.1)).map .arr
       | .vTuple items => (items.attach.mapM (fun x => serializeDyn x.1)).map .arr
       | _ => .error (.pyErr "TypeError: object is not iterable"))
  | .untypedDictSer, v =>
      (match v with
       | .vDict entries => serializeDyn (.vDict entries)
       | _ => .error (.pyErr "AttributeError: keys"))
  | .untypedSetSer, _ =>
      .error (.pyErr "set iteration order: outside the model")
  | .typedListSer child, v =>
      (match v with
       | .vList items =>
           (items.attach.mapM (fun x => generateNode child x.1)).map .arr
       | _ => .error (.pyErr "TypeError: object is not iterable"))
  | .typedStrDictSer child, v =>
      (match v with
       | .vDict entries =>
           (entries.attach.mapM (fun (x : {e // e ∈ entries}) =>
             match x.1.1 with
             | .vStr s => (generateNode child x.1.2).map (fun j => (s, j))
             | _ => .error (.pyErr "non-string dictionary key: outside the model"))).map
             .obj
       | _ => .error (.pyErr "AttributeError: items"))
  | .typedEnumDictSer child, v =>
      (match v with
       | .vDict entries =>
           (entries.attach.mapM (fun (x : {e // e ∈ entries}) =>
             match x.1.1 with
             | .vEnum _ (.lStr s) => (generateNode child x.1.2).map (fun j => (s, j))
             | _ => .error (.pyErr "AttributeError: value"))).map
             .obj
       | _ => .error (.pyErr "AttributeError: items"))
  | .typedTupleSer children, v =>
      (match v with
       | .vTuple items =>
           ((children.zip items).attach.mapM (fun x =>
             generateNode x.1.1 x.1.2)).map .arr
       | _ => .error (.pyErr "TypeError: zip argument is not iterable"))
  | .unionSer, v => serializeDyn v
  | .literalSer child, v => generateNode child v
  | .customSer cname, _ =>
      .error (.pyErr ("custom to_json hook body not modelled: " ++ cname))
  | .dataclassSer _ fields, v
  | .typedNamedTupleSer _ fields, v
  | .typedClassSer _ fields, v =>
      (match v with
       | .vRecord _ vals =>
           ((fields.attach.mapM (fun x =>
             match jsonLookupValue vals x.1.1 with
             | none => .error (.pyErr ("AttributeError: " ++ x.1.1))
             | some .vNone => .ok none
             | some fv =>
                 (generateNode x.1.2.2 fv).map (fun j => some (x.1.2.1, j)))) :
               Except JsonError (List (Option (String × Json)))).map
             (fun l => .obj l.reduceOption)
       | _ => .error (.pyErr "AttributeError: object has no fields"))
  | .untypedNamedTupleSer _, _ =>
      .error (.pyErr "untyped named tuple serialization: outside the model")
  | .untypedClassSer, _ =>
      .error (.pyErr "dir(obj) enumeration: outside the model")
termination_by n _ => sizeOf n
decreasing_by
  all_goals simp_wf
  all_goals first
    | omega
    | (have h := List.sizeOf_lt_of_mem x.2; omega)
    | (obtain ⟨⟨c, i⟩, hx⟩ := x
       have h := List.sizeOf_lt_of_mem ((List.of_mem_zip hx).1)
       simp only
       omega)
    | (obtain ⟨⟨fn, pn, child⟩, hx⟩ := x
       have h := List.sizeOf_lt_of_mem hx
       simp only [Prod.mk.sizeOf_spec] at h
       simp only
       omega)

/-- `FieldDeserializer.parse_field`, one case per subclass, abstracted over
the field's deserializer (`self.parser.parse`):

* `RequiredFieldDeserializer`: a missing property raises `JsonKeyError`;
  otherwise the property value is parsed.
* `OptionalFieldDeserializer`: `data.get(name)` is `None` both for an absent
  property and for an explicit JSON `null`; in either case the field becomes
  `None` and the child deserializer is not invoked.
* `DefaultFieldDeserializer` / `DefaultFactoryFieldDeserializer`: as the
  optional case but producing the declared default (the factory's value). -/
def parseFieldWith (child : Json → Except JsonError PyValue) (pn : String)
    (kind : FPKind) (members : List (String × Json)) :
    Except JsonError PyValue :=
  match kind with
  | .required =>
      (match jsonLookup members pn with
       | none => .error (.keyErr ("missing required property `" ++ pn
           ++ "` from JSON object: " ++ Json.render (.obj members)))
       | some v => child v)
  | .optionalF =>
      (match jsonGet members pn with
       | .null => .ok .vNone
       | v => child v)
  | .dflt dv =>
      (match jsonGet members pn with
       | .null => .ok dv
       | v => child v)
  | .dfltFactory dv =>
      (match jsonGet members pn with
       | .null => .ok dv
       | v => child v)

/-- The per-node parse step `Deserializer.parse` of each node kind the model
covers, including the field-level logic of the `FieldDeserializer`
subclasses:

* `RequiredFieldDeserializer.parse_field`: missing property raises
  `JsonKeyError`; otherwise parse the property value.
* `OptionalFieldDeserializer.parse_field`: `data.get(name)` is `None` both
  for an absent property and for an explicit JSON `null`; in either case the
  field becomes `None` and the child deserializer is not invoked.
* `DefaultFieldDeserializer.parse_field` /
  `DefaultFactoryFieldDeserializer.parse_field`: as the optional case but
  producing the declared default (the factory's value).

`ClassDeserializer.parse` (shared by the dataclass, named-tuple and
typed-class nodes) requires a JSON object, runs every field plan in order,
then rejects the input when any property name was not consumed by a plan,
listing every unrecognized name; `create` assembles the instance from the
field values.  The union node replays the trial loop via `unionResolve` over
the eagerly computed per-alternative outcomes. -/
def parseNode : DNode → Json → Except JsonError PyValue
  | .noneDes, data =>
      (match data with
       | .null => .ok .vNone
       | d => .error (.typeErr
           ("`None` type expects JSON `null` but instead received: " ++ d.render)))
  | .boolDes, data =>
      (match data with
       | .bool b => .ok (.vBool b)
       | d => .error (.typeErr
           ("`bool` type expects JSON `boolean` data but instead received: " ++ d.render)))
  | .intDes, data =>
      -- `isinstance(data, bool)` holds for JSON booleans and Python `bool`
      -- is a subtype of `int`, so a boolean passes the `isinstance(data, int)`
      -- probe and `int(data)` maps it to 0/1.
      (match data with
       | .num n => .ok (.vInt n)
       | .bool b => .ok (.vInt (if b then 1 else 0))
       | d => .error (.typeErr
           ("`int` type expects integer data as JSON `number` but instead received: "
             ++ d.render)))
  | .strDes, data =>
      (match data with
       | .str s => .ok (.vStr s)
       | d => .error (.typeErr
           ("`str` type expects JSON `string` data but instead received: " ++ d.render)))
  | .dateTimeDes, data =>
      (match data with
       | .str s =>
           let s' := if pyEndsWith s "Z" then pyDropLast s 1 ++ "+00:00" else s
           (match PyDateTime.fromisoformat s' with
            | none => .error (.pyErr ("Invalid isoformat string: '" ++ s' ++ "'"))
            | some dt =>
                if dt.tz.isNone then
                  .error (.valueErr
                    ("timestamp lacks explicit time zone designator: " ++ s'))
                else .ok (.vDateTime dt))
       | d => .error (.typeErr
           ("`datetime` type expects JSON `string` data but instead received: "
             ++ d.render)))
  | .timeDes, data =>
      -- no `Z` rewriting here, unlike the `datetime` deserializer
      (match data with
       | .str s =>
           (match PyTime.fromisoformat s with
            | none => .error (.pyErr ("Invalid isoformat string: '" ++ s ++ "'"))
            | some t => .ok (.vTime t))
       | d => .error (.typeErr
           ("`time` type expects JSON `string` data but instead received: " ++ d.render)))
  | .listDes itemName child, data =>
      (match data with
       | .arr items =>
           (items.attach.mapM (fun x => parseNode child x.1)).map .vList
       | d => .error (.typeErr
           ("type `List[" ++ itemName ++ "]` expects JSON `array` data but instead received: "
             ++ d.render)))
  | .dictDes containerName key child, data =>
      (match data with
       | .obj members =>
           ((members.attach.mapM (fun (x : {m // m ∈ members}) =>
             (dictKeyConv key x.1.1).bind (fun k =>
               (parseNode child x.1.2).map (fun v => (k, v))))) :
               Except JsonError (List (PyValue × PyValue))).map .vDict
       | d => .error (.typeErr
           ("`type `" ++ containerName ++ "` expects JSON `object` data but instead received: "
             ++ d.render)))
  | .tupleDes containerName children, data =>
      (match data with
       | .arr items =>
           if items.length = children.length then
             ((children.zip items).attach.mapM (fun x =>
               parseNode x.1.1 x.1.2)).map .vTuple
           else
             .error (.valueErr
               ("type `" ++ containerName ++ "` expects a JSON `array` of length "
                 ++ toString children.length ++ " but received length "
                 ++ toString items.length))
       | d => .error (.typeErr
           ("type `" ++ containerName ++ "` expects JSON `array` data but instead received: "
             ++ d.render)))
  | .unionDes members, data =>
      unionResolve (members.map (fun m => m.1)) data
        (members.attach.map (fun x => parseNode x.1.2 data))
  | .enumDes en ms, data =>
      -- `EnumDeserializer.parse` is `self.enum_type(data)`: a member lookup
      -- by value, raising `ValueError` when no member value matches.
      (match jsonToLit data with
       | some l =>
           (match ms.find? (fun m => m.2 = l) with
            | some m => .ok (.vEnum en m.2)
            | none => .error (.pyErr (litRepr l ++ " is not a valid " ++ en)))
       | none => .error (.pyErr (data.render ++ " is not a valid " ++ en)))
  | .customDes cname, _ =>
      .error (.pyErr ("custom from_json hook body not modelled: " ++ cname))
  | .dataclassDes cname plans, data
  | .namedTupleDes cname plans, data
  | .typedClassDes cname plans, data =>
      (match data with
       | .obj members =>
           ((plans.attach.mapM (fun (x : {p // p ∈ plans}) =>
             (parseFieldWith (fun v => parseNode x.1.2.2.2 v) x.1.1 x.1.2.2.1
                 members).map
               (fun pv => (x.1.2.1, pv)))) :
               Except JsonError (List (String × PyValue))).bind (fun fieldValues =>
             let parsedProps := plans.map (fun p => p.1)
             let unassigned := (members.map (fun m => m.1)).filter
               (fun n => ¬ parsedProps.contains n)
             if unassigned.isEmpty then .ok (.vRecord cname fieldValues)
             else .error (.keyErr
               ("unrecognized fields in JSON object: " ++ pyStrListRepr unassigned)))
       | d => .error (.typeErr
           ("`type `" ++ cname ++ "` expects JSON `object` data but instead received: "
             ++ d.render)))
termination_by n _ => sizeOf n
decreasing_by
  all_goals simp_wf
  all_goals first
    | omega
    | (have h := List.sizeOf_lt_of_mem x.2; omega)
    | (obtain ⟨⟨c, i⟩, hx⟩ := x
       have h := List.sizeOf_lt_of_mem ((List.of_mem_zip hx).1)
       simp only
       omega)
    | (obtain ⟨⟨k, v⟩, hx⟩ := x
       have h := List.sizeOf_lt_of_mem hx
       simp only [Prod.mk.sizeOf_spec] at h
       simp only
       omega)
    | (obtain ⟨⟨pn, fn, kind, child⟩, hx⟩ := x
       have h := List.sizeOf_lt_of_mem hx
       simp only [Prod.mk.sizeOf_spec] at h
       simp only
       omega)

/-! ## String-suffix facts used by the wire-format claims -/

theorem pyEndsWith_iff (s t : String) :
    pyEndsWith s t = true ↔ t.data <:+ s.data := by
  simp [pyEndsWith, List.isSuffixOf_iff_suffix]

theorem pyEndsWith_append (s t : String) : pyEndsWith (s ++ t) t = true := by
  rw [pyEndsWith_iff, String.data_append]
  exact List.suffix_append _ _

theorem getLast?_of_suffix {l1 l2 : List Char} (h : l1 <:+ l2) (hne : l1 ≠ []) :
    l2.getLast? = l1.getLast? := by
  obtain ⟨pre, rfl⟩ := h
  rw [List.getLast?_append]
  cases hl : l1.getLast? with
  | none => exact absurd (List.getLast?_eq_none_iff.mp hl) hne
  | some a => rfl

/-- A string extended with `+00:00` cannot satisfy the trailing-`Z` probe. -/
theorem pyEndsWith_offset_Z (s : String) :
    pyEndsWith (s ++ "+00:00") "Z" = false := by
  by_contra hc
  have h : pyEndsWith (s ++ "+00:00") "Z" = true := by
    cases hb : pyEndsWith (s ++ "+00:00") "Z" with
    | true => rfl
    | false => exact absurd hb hc
  rw [pyEndsWith_iff, String.data_append] at h
  have h1 := getLast?_of_suffix h (by decide)
  have h2 : (s.data ++ "+00:00".data).getLast? = some '0' := by
    rw [List.getLast?_append]; rfl
  rw [h1] at h2
  exact absurd h2 (by decide)

/-- A string extended with `Z` cannot satisfy the trailing-`+00:00` probe. -/
theorem pyEndsWith_Z_offset (s : String) :
    pyEndsWith (s ++ "Z") "+00:00" = false := by
  by_contra hc
  have h : pyEndsWith (s ++ "Z") "+00:00" = true := by
    cases hb : pyEndsWith (s ++ "Z") "+00:00" with
    | true => rfl
    | false => exact absurd hb hc
  rw [pyEndsWith_iff, String.data_append] at h
  have h1 := getLast?_of_suffix h (by decide)
  have h2 : (s.data ++ "Z".data).getLast? = some 'Z' := by
    rw [List.getLast?_append]; rfl
  rw [h1] at h2
  exact absurd h2 (by decide)

theorem pyDropLast_append (s t : String) :
    pyDropLast (s ++ t) t.data.length = s := by
  show String.mk (((s ++ t).data.reverse.drop t.data.length).reverse) = s
  rw [String.data_append, List.reverse_append, ← List.length_reverse t.data,
    List.drop_left, List.reverse_reverse]

/-! ## Generic list facts for the node-tree proofs -/

theorem mapM_subtype {α β E : Type} {P : α → Prop} (l : List {x // P x})
    (f : α → Except E β) :
    l.mapM (fun x => f x.1) = (l.map (fun x => x.1)).mapM f := by
  induction l with
  | nil => rfl
  | cons a l ih => rw [List.mapM_cons, List.map_cons, List.mapM_cons, ih]

theorem attach_map_val' {α : Type} (l : List α) :
    l.attach.map (fun x => x.1) = l := by
  have h := List.attach_map_val l (fun a => a)
  simpa using h

theorem attach_mapM {α β E : Type} (l : List α) (f : α → Except E β) :
    l.attach.mapM (fun x => f x.1) = l.mapM f := by
  rw [mapM_subtype, attach_map_val']

/-! ## Union-alternative trial (claim C2) -/

/-- The `except (JsonKeyError, JsonTypeError)` clause of
`UnionDeserializer.parse`: exactly the shape-mismatch class of outcomes is
swallowed during alternative trial. -/
def isShapeFailure : Except JsonError PyValue → Bool
  | .error (.keyErr _) => true
  | .error (.typeErr _) => true
  | _ => false

theorem parseNode_unionDes (members : List (String × DNode)) (data : Json) :
    parseNode (.unionDes members) data =
      unionResolve (members.map (fun m => m.1)) data
        (members.map (fun m => parseNode m.2 data)) := by
  rw [parseNode.eq_def]
  dsimp only
  congr 1
  exact List.attach_map_val members (fun m => parseNode m.2 data)

theorem unionResolve_skip (names : List String) (data : Json)
    (rs1 rest : List (Except JsonError PyValue))
    (h : ∀ r ∈ rs1, isShapeFailure r = true) :
    unionResolve names data (rs1 ++ rest) = unionResolve names data rest := by
  induction rs1 with
  | nil => rfl
  | cons r rs ih =>
      have hr := h r (List.mem_cons_self r rs)
      have hrest : ∀ r ∈ rs, isShapeFailure r = true :=
        fun x hx => h x (List.mem_cons_of_mem r hx)
      rw [List.cons_append]
      cases r with
      | ok v => simp [isShapeFailure] at hr
      | error e =>
          cases e with
          | keyErr m =>
              rw [show unionResolve names data (.error (.keyErr m) :: (rs ++ rest)) =
                unionResolve names data (rs ++ rest) from rfl, ih hrest]
          | typeErr m =>
              rw [show unionResolve names data (.error (.typeErr m) :: (rs ++ rest)) =
                unionResolve names data (rs ++ rest) from rfl, ih hrest]
          | valueErr m => simp [isShapeFailure] at hr
          | pyErr m => simp [isShapeFailure] at hr

theorem unionResolve_all_shape (names : List String) (data : Json)
    (rs : List (Except JsonError PyValue))
    (h : ∀ r ∈ rs, isShapeFailure r = true) :
    unionResolve names data rs =
      .error (.keyErr ("type `Union[" ++ String.intercalate ", " names
        ++ "]` could not be instantiated from: " ++ data.render)) := by
  have h0 := unionResolve_skip names data rs [] h
  rw [List.append_nil] at h0
  rw [h0]
  rfl

/-- C2: the union deserializer tries the alternatives in declared order,
swallowing only shape-mismatch failures (`JsonKeyError`/`JsonTypeError`):
(i) when every earlier alternative fails with a shape-class error and an
alternative parses cleanly, its result is returned; (ii) when an alternative
fails with a non-shape (semantic) error after only shape-class failures, that
error propagates immediately; (iii) when every alternative fails with a
shape-class error, a single aggregate `JsonKeyError` is raised naming every
alternative type and the original input. -/
theorem claim_C2_union_trial :
    (∀ (ms1 : List (String × DNode)) (nm : String) (d : DNode)
       (ms2 : List (String × DNode)) (data : Json) (v : PyValue),
       (∀ m ∈ ms1, isShapeFailure (parseNode m.2 data) = true) →
       parseNode d data = .ok v →
       parseNode (.unionDes (ms1 ++ (nm, d) :: ms2)) data = .ok v) ∧
    (∀ (ms1 : List (String × DNode)) (nm : String) (d : DNode)
       (ms2 : List (String × DNode)) (data : Json) (e : JsonError),
       (∀ m ∈ ms1, isShapeFailure (parseNode m.2 data) = true) →
       parseNode d data = .error e → isShapeFailure (.error e) = false →
       parseNode (.unionDes (ms1 ++ (nm, d) :: ms2)) data = .error e) ∧
    (∀ (members : List (String × DNode)) (data : Json),
       (∀ m ∈ members, isShapeFailure (parseNode m.2 data) = true) →
       parseNode (.unionDes members) data =
         .error (.keyErr ("type `Union[" ++ String.intercalate ", "
             (members.map (fun m => m.1))
           ++ "]` could not be instantiated from: " ++ data.render))) := by
  refine ⟨?_, ?_, ?_⟩
  · intro ms1 nm d ms2 data v h1 hd
    rw [parseNode_unionDes]
    simp only [List.map_append, List.map_cons]
    rw [unionResolve_skip _ _ _ _ ?hs]
    · rw [hd]; rfl
    · intro r hr
      simp only [List.mem_map] at hr
      obtain ⟨m, hm, rfl⟩ := hr
      exact h1 m hm
  · intro ms1 nm d ms2 data e h1 hd he
    rw [parseNode_unionDes]
    simp only [List.map_append, List.map_cons]
    rw [unionResolve_skip _ _ _ _ ?hs2]
    · rw [hd]
      cases e with
      | keyErr m => simp [isShapeFailure] at he
      | typeErr m => simp [isShapeFailure] at he
      | valueErr m => rfl
      | pyErr m => rfl
    · intro r hr
      simp only [List.mem_map] at hr
      obtain ⟨m, hm, rfl⟩ := hr
      exact h1 m hm
  · intro members data h1
    rw [parseNode_unionDes]
    apply unionResolve_all_shape
    intro r hr
    simp only [List.mem_map] at hr
    obtain ⟨m, hm, rfl⟩ := hr
    exact h1 m hm

/-- C2 witness: `Union[int, str]` on `"a"` skips the failing `int`
alternative and returns the string; `Union[datetime, str]` on an offset-less
timestamp string propagates the semantic `JsonValueError` immediately (the
`str` alternative would have succeeded); `Union[int, str]` on `[]` raises the
aggregate error naming both alternatives and the input. -/
theorem claim_C2_union_trial_witness :
    parseNode (.unionDes [("int", .intDes), ("str", .strDes)]) (.str "a") =
      .ok (.vStr "a") ∧
    parseNode (.unionDes [("datetime", .dateTimeDes), ("str", .strDes)])
      (.str "1989-10-23T01:45:50") =
      .error (.valueErr
        "timestamp lacks explicit time zone designator: 1989-10-23T01:45:50") ∧
    parseNode (.unionDes [("int", .intDes), ("str", .strDes)]) (.arr []) =
      .error (.keyErr
        "type `Union[int, str]` could not be instantiated from: []") := by
  refine ⟨?_, ?_, ?_⟩
  · refine claim_C2_union_trial.1 [("int", .intDes)] "str" .strDes [] (.str "a")
      (.vStr "a") ?_ ?_
    · intro m hm
      simp only [List.mem_singleton] at hm
      subst hm
      rw [parseNode.eq_def]; rfl
    · rw [parseNode.eq_def]
  · refine claim_C2_union_trial.2.1 [] "datetime" .dateTimeDes [("str", .strDes)]
      (.str "1989-10-23T01:45:50")
      (.valueErr "timestamp lacks explicit time zone designator: 1989-10-23T01:45:50")
      (by intro m hm; simp at hm) ?_ (by rfl)
    rw [parseNode.eq_def]; rfl
  · refine claim_C2_union_trial.2.2 [("int", .intDes), ("str", .strDes)] (.arr [])
      ?_
    intro m hm
    simp only [List.mem_cons, List.not_mem_nil, or_false] at hm
    rcases hm with rfl | rfl
    · rw [parseNode.eq_def]; rfl
    · rw [parseNode.eq_def]; rfl

/-! ## Timestamp wire contract (claim C5) -/

theorem generateNode_dateTimeSer (dt : PyDateTime) :
    generateNode .dateTimeSer (.vDateTime dt) = serializeDateTime dt := by
  rw [generateNode.eq_def]

theorem parseNode_dateTimeDes (s : String) :
    parseNode .dateTimeDes (.str s) =
      (let s' := if pyEndsWith s "Z" then pyDropLast s 1 ++ "+00:00" else s
       match PyDateTime.fromisoformat s' with
       | none => .error (.pyErr ("Invalid isoformat string: '" ++ s' ++ "'"))
       | some dt =>
           if dt.tz.isNone then
             .error (.valueErr ("timestamp lacks explicit time zone designator: " ++ s'))
           else .ok (.vDateTime dt)) := by
  rw [parseNode.eq_def]

/-- The `isoformat` of a UTC timestamp factors as its offset-less rendering
followed by `+00:00`. -/
theorem isoformat_utc (dt : PyDateTime) (h : dt.tz = some 0) :
    dt.isoformat =
      (pad4 dt.year ++ "-" ++ pad2 dt.month ++ "-" ++ pad2 dt.day ++ "T" ++
        (pad2 dt.hour ++ ":" ++ pad2 dt.minute ++ ":" ++ pad2 dt.second)) ++ "+00:00" := by
  have hoff : offsetSuffix 0 = "+00:00" := by decide
  simp only [PyDateTime.isoformat, PyTime.isoformat, h, hoff]
  simp only [← String.append_assoc]

/-- C5: serializing a timezone-aware UTC timestamp yields a string with the
trailing `Z` marker and never a trailing `+00:00`; deserializing a string
ending in `Z` is identical to deserializing the same string with `+00:00` in
its place (so both succeed with the identical instant whenever either does);
serializing a naive timestamp raises `JsonValueError`; and deserializing a
string that parses to an offset-less timestamp raises `JsonValueError`. -/
theorem claim_C5_timestamp_contract :
    (∀ dt : PyDateTime, dt.tz = some 0 →
       ∃ out, generateNode .dateTimeSer (.vDateTime dt) = .ok (.str out) ∧
         pyEndsWith out "Z" = true ∧ pyEndsWith out "+00:00" = false) ∧
    (∀ s : String,
       parseNode .dateTimeDes (.str (s ++ "Z")) =
         parseNode .dateTimeDes (.str (s ++ "+00:00"))) ∧
    (∀ dt : PyDateTime, dt.tz = none →
       generateNode .dateTimeSer (.vDateTime dt) =
         .error (.valueErr
           ("timestamp lacks explicit time zone designator: " ++ dt.pyStr))) ∧
    (∀ (s : String) (dt : PyDateTime), pyEndsWith s "Z" = false →
       PyDateTime.fromisoformat s = some dt → dt.tz = none →
       parseNode .dateTimeDes (.str s) =
         .error (.valueErr
           ("timestamp lacks explicit time zone designator: " ++ s))) := by
  refine ⟨?_, ?_, ?_, ?_⟩
  · intro dt h
    rw [generateNode_dateTimeSer]
    set base := pad4 dt.year ++ "-" ++ pad2 dt.month ++ "-" ++ pad2 dt.day ++ "T" ++
      (pad2 dt.hour ++ ":" ++ pad2 dt.minute ++ ":" ++ pad2 dt.second) with hbase
    refine ⟨base ++ "Z", ?_, pyEndsWith_append base "Z", pyEndsWith_Z_offset base⟩
    simp only [serializeDateTime, h]
    rw [isoformat_utc dt h, ← hbase, pyEndsWith_append]
    simp only [if_true]
    have hd := pyDropLast_append base "+00:00"
    rw [show ("+00:00" : String).data.length = 6 from rfl] at hd
    rw [hd]
  · intro s
    rw [parseNode_dateTimeDes, parseNode_dateTimeDes]
    have h1 : pyEndsWith (s ++ "Z") "Z" = true := pyEndsWith_append s "Z"
    have h2 : pyEndsWith (s ++ "+00:00") "Z" = false := pyEndsWith_offset_Z s
    have h3 : pyDropLast (s ++ "Z") 1 = s := pyDropLast_append s "Z"
    simp only [h1, h2, if_true, Bool.false_eq_true, if_false, h3]
  · intro dt h
    rw [generateNode_dateTimeSer]
    simp only [serializeDateTime, h]
  · intro s dt hz hiso hnaive
    rw [parseNode_dateTimeDes]
    simp only [hz, Bool.false_eq_true, if_false, hiso, hnaive]
    rfl

/-- C5 witness at the concrete instant 1989-10-23T01:45:50 UTC. -/
theorem claim_C5_timestamp_contract_witness :
    (∃ out, generateNode .dateTimeSer
        (.vDateTime ⟨1989, 10, 23, 1, 45, 50, some 0⟩) = .ok (.str out) ∧
      pyEndsWith out "Z" = true ∧ pyEndsWith out "+00:00" = false) ∧
    parseNode .dateTimeDes (.str ("1989-10-23T01:45:50" ++ "Z")) =
      parseNode .dateTimeDes (.str ("1989-10-23T01:45:50" ++ "+00:00")) ∧
    generateNode .dateTimeSer (.vDateTime ⟨1989, 10, 23, 1, 45, 50, none⟩) =
      .error (.valueErr ("timestamp lacks explicit time zone designator: " ++
        PyDateTime.pyStr ⟨1989, 10, 23, 1, 45, 50, none⟩)) ∧
    parseNode .dateTimeDes (.str "1989-10-23T01:45:50") =
      .error (.valueErr ("timestamp lacks explicit time zone designator: " ++
        "1989-10-23T01:45:50")) :=
  ⟨claim_C5_timestamp_contract.1 ⟨1989, 10, 23, 1, 45, 50, some 0⟩ rfl,
   claim_C5_timestamp_contract.2.1 "1989-10-23T01:45:50",
   claim_C5_timestamp_contract.2.2.1 ⟨1989, 10, 23, 1, 45, 50, none⟩ rfl,
   claim_C5_timestamp_contract.2.2.2 "1989-10-23T01:45:50"
     ⟨1989, 10, 23, 1, 45, 50, none⟩ (by decide) (by decide) rfl⟩

/-! ## Time-of-day wire rendering (claim C9) -/

theorem generateNode_timeSer (t : PyTime) :
    generateNode .timeSer (.vTime t) = .ok (.str t.isoformat) := by
  rw [generateNode.eq_def]

theorem parseNode_timeDes (s : String) :
    parseNode .timeDes (.str s) =
      (match PyTime.fromisoformat s with
       | none => .error (.pyErr ("Invalid isoformat string: '" ++ s ++ "'"))
       | some t => .ok (.vTime t)) := by
  rw [parseNode.eq_def]

theorem charDigit_digitChar (d : Nat) (hd : d < 10) :
    charDigit (Nat.digitChar d) = some d := by
  interval_cases d <;> decide

theorem time_isoformat_utc (t : PyTime) (h : t.tz = some 0) :
    t.isoformat =
      pad2 t.hour ++ ":" ++ pad2 t.minute ++ ":" ++ pad2 t.second ++ "+00:00" := by
  have hoff : offsetSuffix 0 = "+00:00" := by decide
  simp only [PyTime.isoformat, h, hoff]

theorem time_iso_data (h m s : Nat) :
    (pad2 h ++ ":" ++ pad2 m ++ ":" ++ pad2 s ++ "+00:00").data =
      [Nat.digitChar (h / 10 % 10), Nat.digitChar (h % 10), ':',
       Nat.digitChar (m / 10 % 10), Nat.digitChar (m % 10), ':',
       Nat.digitChar (s / 10 % 10), Nat.digitChar (s % 10),
       '+', '0', '0', ':', '0', '0'] := by
  simp [String.data_append, pad2]

theorem timeChars_roundtrip (h m s : Nat) (hh : h < 24) (hm : m < 60)
    (hs : s < 60) :
    timeChars
      [Nat.digitChar (h / 10 % 10), Nat.digitChar (h % 10), ':',
       Nat.digitChar (m / 10 % 10), Nat.digitChar (m % 10), ':',
       Nat.digitChar (s / 10 % 10), Nat.digitChar (s % 10),
       '+', '0', '0', ':', '0', '0'] = some ⟨h, m, s, some 0⟩ := by
  have e1 : charDigit (Nat.digitChar (h / 10 % 10)) = some (h / 10 % 10) :=
    charDigit_digitChar _ (Nat.mod_lt _ (by norm_num))
  have e2 : charDigit (Nat.digitChar (h % 10)) = some (h % 10) :=
    charDigit_digitChar _ (Nat.mod_lt _ (by norm_num))
  have e3 : charDigit (Nat.digitChar (m / 10 % 10)) = some (m / 10 % 10) :=
    charDigit_digitChar _ (Nat.mod_lt _ (by norm_num))
  have e4 : charDigit (Nat.digitChar (m % 10)) = some (m % 10) :=
    charDigit_digitChar _ (Nat.mod_lt _ (by norm_num))
  have e5 : charDigit (Nat.digitChar (s / 10 % 10)) = some (s / 10 % 10) :=
    charDigit_digitChar _ (Nat.mod_lt _ (by norm_num))
  have e6 : charDigit (Nat.digitChar (s % 10)) = some (s % 10) :=
    charDigit_digitChar _ (Nat.mod_lt _ (by norm_num))
  have rh : h / 10 % 10 * 10 + h % 10 = h := by omega
  have rm : m / 10 % 10 * 10 + m % 10 = m := by omega
  have rs : s / 10 % 10 * 10 + s % 10 = s := by omega
  have e0 : charDigit '0' = some 0 := by decide
  simp only [timeChars, e1, e2, e3, e4, e5, e6, e0, Option.some_bind, rh, rm, rs]
  simp [hh, hm, hs]
  omega

/-- C9 counterexample: at the time-of-day 12:00:00 with UTC offset, the
serializer emits `"12:00:00+00:00"` — a string that does **not** end in `Z` —
and deserializing `"12:00:00Z"` is rejected (`time.fromisoformat` receives
the unmodified string and fails) while the `+00:00` form succeeds; the claim
as stated is therefore false for the time codec in both directions. -/
theorem claim_C9_time_Z_counterexample :
    generateNode .timeSer (.vTime ⟨12, 0, 0, some 0⟩) =
      .ok (.str "12:00:00+00:00") ∧
    pyEndsWith "12:00:00+00:00" "Z" = false ∧
    parseNode .timeDes (.str "12:00:00Z") =
      .error (.pyErr "Invalid isoformat string: '12:00:00Z'") ∧
    parseNode .timeDes (.str "12:00:00+00:00") =
      .ok (.vTime ⟨12, 0, 0, some 0⟩) := by
  refine ⟨?_, by decide, ?_, ?_⟩
  · rw [generateNode_timeSer]; rfl
  · rw [parseNode_timeDes]; rfl
  · rw [parseNode_timeDes]; rfl

/-- C9 as amended: a time-of-day value serializes to its unmodified
`isoformat` rendering — for a UTC offset this ends in `+00:00`, never `Z`
(only the `datetime` serializer performs the `Z` rewriting) — and the
deserializer accepts the numeric-offset form, returning the identical
instant (the trailing-`Z` form is not specially handled and is rejected, as
the counterexample shows). -/
theorem claim_C9_time_offset_rendering :
    (∀ t : PyTime, generateNode .timeSer (.vTime t) = .ok (.str t.isoformat)) ∧
    (∀ t : PyTime, t.tz = some 0 →
       pyEndsWith t.isoformat "+00:00" = true ∧
       pyEndsWith t.isoformat "Z" = false) ∧
    (∀ t : PyTime, t.tz = some 0 → t.hour < 24 → t.minute < 60 →
       t.second < 60 →
       parseNode .timeDes (.str t.isoformat) = .ok (.vTime t)) := by
  refine ⟨generateNode_timeSer, ?_, ?_⟩
  · intro t h
    rw [time_isoformat_utc t h]
    exact ⟨pyEndsWith_append _ "+00:00", pyEndsWith_offset_Z _⟩
  · intro t h hh hm hs
    obtain ⟨th, tm, ts, ttz⟩ := t
    simp only at hh hm hs h
    subst h
    rw [time_isoformat_utc ⟨th, tm, ts, some 0⟩ rfl]
    rw [parseNode_timeDes]
    have hdata := time_iso_data th tm ts
    simp only [PyTime.fromisoformat, hdata,
      timeChars_roundtrip th tm ts hh hm hs]

/-- C9 witness at the time-of-day 12:00:00 UTC. -/
theorem claim_C9_time_offset_rendering_witness :
    generateNode .timeSer (.vTime ⟨12, 0, 0, some 0⟩) =
      .ok (.str (PyTime.isoformat ⟨12, 0, 0, some 0⟩)) ∧
    (pyEndsWith (PyTime.isoformat ⟨12, 0, 0, some 0⟩) "+00:00" = true ∧
     pyEndsWith (PyTime.isoformat ⟨12, 0, 0, some 0⟩) "Z" = false) ∧
    parseNode .timeDes (.str (PyTime.isoformat ⟨12, 0, 0, some 0⟩)) =
      .ok (.vTime ⟨12, 0, 0, some 0⟩) :=
  ⟨claim_C9_time_offset_rendering.1 ⟨12, 0, 0, some 0⟩,
   claim_C9_time_offset_rendering.2.1 ⟨12, 0, 0, some 0⟩ rfl,
   claim_C9_time_offset_rendering.2.2 ⟨12, 0, 0, some 0⟩ rfl (by norm_num)
     (by norm_num) (by norm_num)⟩

/-! ## Null property vs. absent property (claim C10) -/

/-- C10: for a field with a declared default value, a default factory, or
bare optionality, a property that is present with JSON `null` is treated
identically to an absent property (`data.get` cannot distinguish the two):
the field receives the declared default (or `None`), and — as the universal
quantification over `child` shows — the field's inner deserializer is never
invoked on the `null`. -/
theorem claim_C10_null_property_equals_absent :
    ∀ (child : Json → Except JsonError PyValue) (pn : String)
      (members : List (String × Json)) (dv : PyValue),
      (jsonLookup members pn = some .null ∨ jsonLookup members pn = none) →
      parseFieldWith child pn (.dflt dv) members = .ok dv ∧
      parseFieldWith child pn (.dfltFactory dv) members = .ok dv ∧
      parseFieldWith child pn .optionalF members = .ok .vNone := by
  intro child pn members dv h
  have hg : jsonGet members pn = .null := by
    rcases h with h | h <;> simp [jsonGet, h]
  refine ⟨?_, ?_, ?_⟩ <;> simp [parseFieldWith, hg]

/-- C10 witness: the property `value` present with `null` yields the default
`5` (value and factory variants) and `None` (optional variant), with the
`int` field deserializer as the inner parser; the absent-property case is
covered by the second application. -/
theorem claim_C10_null_property_equals_absent_witness :
    (parseFieldWith (parseNode .intDes) "value" (.dflt (.vInt 5))
        [("value", .null)] = .ok (.vInt 5) ∧
     parseFieldWith (parseNode .intDes) "value" (.dfltFactory (.vInt 5))
        [("value", .null)] = .ok (.vInt 5) ∧
     parseFieldWith (parseNode .intDes) "value" .optionalF
        [("value", .null)] = .ok .vNone) ∧
    (parseFieldWith (parseNode .intDes) "value" (.dflt (.vInt 5)) [] =
        .ok (.vInt 5) ∧
     parseFieldWith (parseNode .intDes) "value" (.dfltFactory (.vInt 5)) [] =
        .ok (.vInt 5) ∧
     parseFieldWith (parseNode .intDes) "value" .optionalF [] = .ok .vNone) :=
  ⟨claim_C10_null_property_equals_absent (parseNode .intDes) "value"
      [("value", .null)] (.vInt 5) (Or.inl rfl),
   claim_C10_null_property_equals_absent (parseNode .intDes) "value"
      [] (.vInt 5) (Or.inr rfl)⟩

/-! ## Codec construction dispatch (claims C6, C7, C8) -/

theorem exceptMap_ok {E α β : Type} (f : α → β) (x : Except E α) (b : β)
    (h : Except.map f x = .ok b) : ∃ a, x = .ok a ∧ b = f a := by
  cases x with
  | ok a =>
      refine ⟨a, rfl, ?_⟩
      simpa [Except.map] using h.symm
  | error e => simp [Except.map] at h

/-- C7: codec construction for a literal-set type whose values share the
underlying type `str` succeeds in the serializer (`LiteralSerializer` over
the shared primitive type) but raises `TypeError` in the deserializer —
`_create_deserializer` has no `Literal` branch, so the special form falls
through to the `not inspect.isclass` rejection.  The bare container types,
by contrast, are rejected at construction only by the deserializer; the
serializer accepts them with untyped nodes. -/
theorem claim_C7_literal_construction :
    createSerializer (.genLiteral [.lStr "val1", .lStr "val2", .lStr "val3"]) =
      .ok (.literalSer .strSer) ∧
    createDeserializer (.genLiteral [.lStr "val1", .lStr "val2", .lStr "val3"]) =
      .error (.typeError
        "unable to de-serialize unrecognized type: Literal['val1', 'val2', 'val3']") ∧
    createDeserializer .bareList =
      .error (.typeError "explicit item type required: use `List[T]` instead of `list`") ∧
    createSerializer .bareList = .ok .untypedListSer := by
  refine ⟨?_, ?_, ?_, ?_⟩
  · rw [createSerializer.eq_def]; rfl
  · rw [createDeserializer.eq_def]; rfl
  · rw [createDeserializer.eq_def]
  · rw [createSerializer.eq_def]

/-- C8: for `Dict[Suit, int]` with `Suit` an `int`-valued enumeration, the
serializer rejects the key type at construction (`TypedEnumDictSerializer`),
but the deserializer **accepts** it — `DictDeserializer._check_key_type`
builds the intended failure message as a bare f-string expression without a
`raise` — and the failure then surfaces only at value time, as a `ValueError`
from the enumeration lookup on the first key.  A key type that is neither
`str` nor an enumeration is rejected at construction time in both
directions. -/
theorem claim_C8_dict_key_construction :
    createSerializer (.genDict
        (.cls "Suit" (some [("Diamonds", .lInt 1)]) false false false false [])
        .pInt) =
      .error (.jsonTypeError
        "invalid enumeration key type, expected `enum.Enum` with string values") ∧
    createDeserializer (.genDict
        (.cls "Suit" (some [("Diamonds", .lInt 1)]) false false false false [])
        .pInt) =
      .ok (.dictDes "Dict[Suit, int]"
        (.kEnum "Suit" [("Diamonds", .lInt 1)]) .intDes) ∧
    parseNode (.dictDes "Dict[Suit, int]"
        (.kEnum "Suit" [("Diamonds", .lInt 1)]) .intDes)
      (.obj [("x", .num 3)]) = .error (.pyErr "'x' is not a valid Suit") ∧
    createDeserializer (.genDict .pInt .pInt) =
      .error (.jsonTypeError
        "`type `Dict[int, int]` has invalid key type, expected `str` or `enum.Enum` with string values") ∧
    createSerializer (.genDict .pInt .pInt) =
      .error (.typeError
        "Dict[int, int] is not a module, class, method, or function.") := by
  refine ⟨?_, ?_, ?_, ?_, ?_⟩
  · rw [createSerializer.eq_def]
    dsimp only
    rw [createSerializer.eq_def]
    rfl
  · rw [createDeserializer.eq_def]
    dsimp only
    rw [createDeserializer.eq_def]
    rfl
  · rw [parseNode.eq_def]; rfl
  · rw [createDeserializer.eq_def]; rfl
  · rw [createSerializer.eq_def]; rfl

/-- C6 counterexample: a class that is simultaneously an enumeration and
exposes both hooks (`to_json`, `from_json`) gets the custom serializer but
the **structural** `EnumDeserializer`, because `_create_deserializer` probes
`issubclass(typ, enum.Enum)` (and the named-tuple shape) before the
`from_json` hook; likewise a named tuple with both hooks gets the custom
serializer but `NamedTupleDeserializer`.  The claimed hook priority therefore
fails in the deserializer direction. -/
theorem claim_C6_custom_hook_counterexample :
    createSerializer (.cls "E" (some [("A", .lStr "a")]) false true true false []) =
      .ok (.customSer "E") ∧
    createDeserializer (.cls "E" (some [("A", .lStr "a")]) false true true false []) =
      .ok (.enumDes "E" [("A", .lStr "a")]) ∧
    createDeserializer (.cls "E" (some [("A", .lStr "a")]) false true true false []) ≠
      .ok (.customDes "E") ∧
    createSerializer (.cls "NT2" none true true true false [("x", .noDflt, .pInt)]) =
      .ok (.customSer "NT2") ∧
    createDeserializer (.cls "NT2" none true true true false [("x", .noDflt, .pInt)]) =
      .ok (.namedTupleDes "NT2" [("x", "x", .required, .intDes)]) := by
  refine ⟨?_, ?_, ?_, ?_, ?_⟩
  · rw [createSerializer.eq_def]; rfl
  · rw [createDeserializer.eq_def]
  · rw [createDeserializer.eq_def]; simp
  · rw [createSerializer.eq_def]; rfl
  · rw [createDeserializer.eq_def]
    dsimp only
    simp [createDeserializer, List.mapM, List.mapM.loop, Except.map]

/-- C6 as amended: in the serializer direction a `to_json` hook always wins
over structural dispatch — also for enumerations, dataclasses and named
tuples.  In the deserializer direction a `from_json` hook wins over the
dataclass and typed-class handling, but enumeration classification and
named-tuple classification are probed earlier, so such types get their
structural deserializer even when a `from_json` hook is present. -/
theorem claim_C6_custom_hook_priority :
    (∀ (name : String) (em : Option (List (String × Lit))) (nt fromJ dc : Bool)
       (hints : List (String × DfltSpec × PyType)),
       createSerializer (.cls name em nt true fromJ dc hints) =
         .ok (.customSer name)) ∧
    (∀ (name : String) (ms : List (String × Lit)) (nt toJ fromJ dc : Bool)
       (hints : List (String × DfltSpec × PyType)),
       createDeserializer (.cls name (some ms) nt toJ fromJ dc hints) =
         .ok (.enumDes name ms)) ∧
    (∀ (name : String) (toJ dc : Bool)
       (hints : List (String × DfltSpec × PyType)),
       createDeserializer (.cls name none false toJ true dc hints) =
         .ok (.customDes name)) ∧
    (∀ (name : String) (toJ dc : Bool)
       (hints : List (String × DfltSpec × PyType)) (r : DNode),
       createDeserializer (.cls name none true toJ true dc hints) = .ok r →
       ∃ plans, r = .namedTupleDes name plans) := by
  refine ⟨?_, ?_, ?_, ?_⟩
  · intro name em nt fromJ dc hints
    rw [createSerializer.eq_def]
    rfl
  · intro name ms nt toJ fromJ dc hints
    rw [createDeserializer.eq_def]
  · intro name toJ dc hints
    rw [createDeserializer.eq_def]
    rfl
  · intro name toJ dc hints r hr
    rw [createDeserializer.eq_def] at hr
    dsimp only at hr
    simp only [if_true] at hr
    obtain ⟨ps, _, hb⟩ := exceptMap_ok _ _ _ hr
    exact ⟨ps, hb⟩

/-- C6 witness: the four priority facts at concrete classes, including the
discharge of the named-tuple clause's hypothesis at a concrete named tuple
with hooks. -/
theorem claim_C6_custom_hook_priority_witness :
    createSerializer (.cls "E" (some [("A", .lStr "a")]) false true true false []) =
      .ok (.customSer "E") ∧
    createDeserializer (.cls "E" (some [("A", .lStr "a")]) false true true false []) =
      .ok (.enumDes "E" [("A", .lStr "a")]) ∧
    createDeserializer (.cls "C" none false true true true []) =
      .ok (.customDes "C") ∧
    (∃ plans, DNode.namedTupleDes "NT3" [] = .namedTupleDes "NT3" plans) :=
  ⟨claim_C6_custom_hook_priority.1 "E" (some [("A", .lStr "a")]) false true false [],
   claim_C6_custom_hook_priority.2.1 "E" [("A", .lStr "a")] false true true false [],
   claim_C6_custom_hook_priority.2.2.1 "C" true true [],
   claim_C6_custom_hook_priority.2.2.2 "NT3" true false [] (.namedTupleDes "NT3" [])
     (by rw [createDeserializer.eq_def]; rfl)⟩

/-! ## Record codec bridging lemmas (claims C1, C3, C4) -/

/-- The field phase of `ClassDeserializer.parse`: every field plan is run in
order against the input object, producing the `field_values` assignment. -/
def parsePlans (plans : List (String × String × FPKind × DNode))
    (members : List (String × Json)) :
    Except JsonError (List (String × PyValue)) :=
  plans.mapM (fun p =>
    (parseFieldWith (fun v => parseNode p.2.2.2 v) p.1 p.2.2.1 members).map
      (fun pv => (p.2.1, pv)))

/-- The leftover-property scan of `ClassDeserializer.parse`: input property
names matched by no field plan, in input order. -/
def unassignedNames (plans : List (String × String × FPKind × DNode))
    (members : List (String × Json)) : List String :=
  (members.map (fun m => m.1)).filter
    (fun n => ¬ (plans.map (fun p => p.1)).contains n)

/-- The per-field step of `TypedClassSerializer.generate`: read the field,
contribute no property when it is `None`, else the serialized value under the
property name. -/
def generatePlans (fields : List (String × String × SNode))
    (vals : List (String × PyValue)) :
    Except JsonError (List (Option (String × Json))) :=
  fields.mapM (fun f =>
    match jsonLookupValue vals f.1 with
    | none => .error (.pyErr ("AttributeError: " ++ f.1))
    | some .vNone => .ok none
    | some fv => (generateNode f.2.2 fv).map (fun j => some (f.2.1, j)))

theorem parseNode_dataclassDes (cname : String)
    (plans : List (String × String × FPKind × DNode))
    (members : List (String × Json)) :
    parseNode (.dataclassDes cname plans) (.obj members) =
      (parsePlans plans members).bind (fun fvs =>
        if (unassignedNames plans members).isEmpty then
          .ok (.vRecord cname fvs)
        else .error (.keyErr ("unrecognized fields in JSON object: " ++
          pyStrListRepr (unassignedNames plans members)))) := by
  rw [parseNode.eq_def]
  dsimp only
  rw [attach_mapM plans (fun p =>
    (parseFieldWith (fun v => parseNode p.2.2.2 v) p.1 p.2.2.1 members).map
      (fun pv => (p.2.1, pv)))]
  rfl

theorem parseNode_namedTupleDes (cname : String)
    (plans : List (String × String × FPKind × DNode))
    (members : List (String × Json)) :
    parseNode (.namedTupleDes cname plans) (.obj members) =
      (parsePlans plans members).bind (fun fvs =>
        if (unassignedNames plans members).isEmpty then
          .ok (.vRecord cname fvs)
        else .error (.keyErr ("unrecognized fields in JSON object: " ++
          pyStrListRepr (unassignedNames plans members)))) := by
  rw [parseNode.eq_def]
  dsimp only
  rw [attach_mapM plans (fun p =>
    (parseFieldWith (fun v => parseNode p.2.2.2 v) p.1 p.2.2.1 members).map
      (fun pv => (p.2.1, pv)))]
  rfl

theorem parseNode_typedClassDes (cname : String)
    (plans : List (String × String × FPKind × DNode))
    (members : List (String × Json)) :
    parseNode (.typedClassDes cname plans) (.obj members) =
      (parsePlans plans members).bind (fun fvs =>
        if (unassignedNames plans members).isEmpty then
          .ok (.vRecord cname fvs)
        else .error (.keyErr ("unrecognized fields in JSON object: " ++
          pyStrListRepr (unassignedNames plans members)))) := by
  rw [parseNode.eq_def]
  dsimp only
  rw [attach_mapM plans (fun p =>
    (parseFieldWith (fun v => parseNode p.2.2.2 v) p.1 p.2.2.1 members).map
      (fun pv => (p.2.1, pv)))]
  rfl

theorem generateNode_dataclassSer (cname rn : String)
    (fields : List (String × String × SNode))
    (vals : List (String × PyValue)) :
    generateNode (.dataclassSer cname fields) (.vRecord rn vals) =
      (generatePlans fields vals).map (fun l => .obj l.reduceOption) := by
  rw [generateNode.eq_def]
  dsimp only
  rw [attach_mapM fields (fun f =>
    match jsonLookupValue vals f.1 with
    | none => .error (.pyErr ("AttributeError: " ++ f.1))
    | some .vNone => .ok none
    | some fv => (generateNode f.2.2 fv).map (fun j => some (f.2.1, j)))]
  rfl

theorem generateNode_typedNamedTupleSer (cname rn : String)
    (fields : List (String × String × SNode))
    (vals : List (String × PyValue)) :
    generateNode (.typedNamedTupleSer cname fields) (.vRecord rn vals) =
      (generatePlans fields vals).map (fun l => .obj l.reduceOption) := by
  rw [generateNode.eq_def]
  dsimp only
  rw [attach_mapM fields (fun f =>
    match jsonLookupValue vals f.1 with
    | none => .error (.pyErr ("AttributeError: " ++ f.1))
    | some .vNone => .ok none
    | some fv => (generateNode f.2.2 fv).map (fun j => some (f.2.1, j)))]
  rfl

theorem generateNode_typedClassSer (cname rn : String)
    (fields : List (String × String × SNode))
    (vals : List (String × PyValue)) :
    generateNode (.typedClassSer cname fields) (.vRecord rn vals) =
      (generatePlans fields vals).map (fun l => .obj l.reduceOption) := by
  rw [generateNode.eq_def]
  dsimp only
  rw [attach_mapM fields (fun f =>
    match jsonLookupValue vals f.1 with
    | none => .error (.pyErr ("AttributeError: " ++ f.1))
    | some .vNone => .ok none
    | some fv => (generateNode f.2.2 fv).map (fun j => some (f.2.1, j)))]
  rfl

/-! ## Strict object parsing (claim C3) -/

/-- C3 counterexample: against a record with the single required field
`value`, the input `{"extra": 1}` does contain an unrecognized key, but the
raised error is the missing-required-property failure from the field phase —
which runs before the leftover-key scan — not the unrecognized-fields error,
so the error does not report the list of unrecognized key names. -/
theorem claim_C3_unrecognized_counterexample :
    parseNode (.dataclassDes "SimpleValueWrapper"
        [("value", "value", .required, .intDes)])
      (.obj [("extra", .num 1)]) =
      .error (.keyErr
        "missing required property `value` from JSON object: \x7b'extra': 1\x7d") ∧
    "missing required property `value` from JSON object: \x7b'extra': 1\x7d" ≠
      "unrecognized fields in JSON object: " ++ pyStrListRepr ["extra"] := by
  refine ⟨?_, by decide⟩
  rw [parseNode_dataclassDes]
  rfl

/-- C3 as amended: provided every field plan parses successfully from the
input object (in particular, no required field is missing and no field value
fails its deserializer), an input containing keys matched by no field plan is
rejected with a `JsonKeyError` that reports the complete list of unrecognized
key names, in input order — identically for dataclass, named-tuple and
annotated-class records. -/
theorem claim_C3_unrecognized_fields :
    ∀ (cname : String) (plans : List (String × String × FPKind × DNode))
      (members : List (String × Json)) (fvs : List (String × PyValue)),
      parsePlans plans members = .ok fvs →
      unassignedNames plans members ≠ [] →
      parseNode (.dataclassDes cname plans) (.obj members) =
        .error (.keyErr ("unrecognized fields in JSON object: " ++
          pyStrListRepr (unassignedNames plans members))) ∧
      parseNode (.namedTupleDes cname plans) (.obj members) =
        .error (.keyErr ("unrecognized fields in JSON object: " ++
          pyStrListRepr (unassignedNames plans members))) ∧
      parseNode (.typedClassDes cname plans) (.obj members) =
        .error (.keyErr ("unrecognized fields in JSON object: " ++
          pyStrListRepr (unassignedNames plans members))) := by
  intro cname plans members fvs hok hne
  have hempty : (unassignedNames plans members).isEmpty = false := by
    cases h : unassignedNames plans members with
    | nil => exact absurd h hne
    | cons a l => rfl
  refine ⟨?_, ?_, ?_⟩
  · rw [parseNode_dataclassDes, hok]
    simp only [Except.bind, hempty, Bool.false_eq_true, if_false]
  · rw [parseNode_namedTupleDes, hok]
    simp only [Except.bind, hempty, Bool.false_eq_true, if_false]
  · rw [parseNode_typedClassDes, hok]
    simp only [Except.bind, hempty, Bool.false_eq_true, if_false]

/-- C3 witness: the spec's own example — `{"value": 23, "extra": 42}`
against a record with only the field `value` — fails with the error listing
exactly `['extra']`. -/
theorem claim_C3_unrecognized_fields_witness :
    parseNode (.dataclassDes "OptionalValueWrapper"
        [("value", "value", .required, .intDes)])
      (.obj [("value", .num 23), ("extra", .num 42)]) =
      .error (.keyErr ("unrecognized fields in JSON object: " ++
        pyStrListRepr (unassignedNames
          [("value", "value", .required, .intDes)]
          [("value", .num 23), ("extra", .num 42)]))) :=
  (claim_C3_unrecognized_fields "OptionalValueWrapper"
    [("value", "value", .required, .intDes)]
    [("value", .num 23), ("extra", .num 42)]
    [("value", .vInt 23)]
    (by simp [parsePlans, parseFieldWith, jsonLookup, parseNode,
      List.mapM, List.mapM.loop]
        rfl)
    (by decide)).1

/-! ## Null-field omission and optional/default fields (claim C4) -/

theorem mapM_ok_forall {α β E : Type} (f : α → Except E β) :
    ∀ (l : List α) (ys : List β), l.mapM f = .ok ys →
      ∀ y ∈ ys, ∃ x ∈ l, f x = .ok y := by
  intro l
  induction l with
  | nil =>
      intro ys h y hy
      simp only [List.mapM_nil] at h
      cases h
      simp at hy
  | cons a l ih =>
      intro ys h y hy
      rw [List.mapM_cons] at h
      cases ha : f a with
      | error e => rw [ha] at h; cases h
      | ok b =>
          rw [ha] at h
          cases hl : l.mapM f with
          | error e => rw [hl] at h; cases h
          | ok bs =>
              rw [hl] at h
              have h' : (Except.ok (b :: bs) : Except E (List β)) = .ok ys := h
              have hys := (Except.ok.inj h').symm
              subst hys
              rcases hy with _ | htail
              · exact ⟨a, List.mem_cons_self a l, ha⟩
              · obtain ⟨x, hx, hfx⟩ := ih bs hl y (by assumption)
                exact ⟨x, List.mem_cons_of_mem a hx, hfx⟩

/-- A field whose runtime value is `None` contributes nothing to the output
object: the field phase yields a `none` entry that `reduceOption` drops, so
the generated object equals the one generated without that field plan. -/
theorem generatePlans_null_field (fields1 fields2 : List (String × String × SNode))
    (fn pn : String) (child : SNode) (vals : List (String × PyValue))
    (h : jsonLookupValue vals fn = some .vNone) :
    (generatePlans (fields1 ++ (fn, pn, child) :: fields2) vals).map
        (fun l => Json.obj l.reduceOption) =
      (generatePlans (fields1 ++ fields2) vals).map
        (fun l => Json.obj l.reduceOption) := by
  unfold generatePlans
  rw [List.mapM_append, List.mapM_append, List.mapM_cons]
  cases h1 : (fields1.mapM (fun f =>
      match jsonLookupValue vals f.1 with
      | none => (.error (.pyErr ("AttributeError: " ++ f.1)) :
          Except JsonError (Option (String × Json)))
      | some .vNone => .ok none
      | some fv => (generateNode f.2.2 fv).map (fun j => some (f.2.1, j)))) with
  | error e => rfl
  | ok l1 =>
      simp only [h, Except.bind]
      cases h2 : (fields2.mapM (fun f =>
          match jsonLookupValue vals f.1 with
          | none => (.error (.pyErr ("AttributeError: " ++ f.1)) :
              Except JsonError (Option (String × Json)))
          | some .vNone => .ok none
          | some fv => (generateNode f.2.2 fv).map (fun j => some (f.2.1, j)))) with
      | error e => rfl
      | ok l2 =>
          have hfm : List.filterMap id (l1 ++ none :: l2) =
              List.filterMap id (l1 ++ l2) := by
            simp [List.filterMap_append]
          show (Except.ok (Json.obj (List.filterMap id (l1 ++ (none :: l2)))) :
              Except JsonError Json) =
            Except.ok (Json.obj (List.filterMap id (l1 ++ l2)))
          rw [hfm]

theorem parsePlans_required_missing (fn pn : String) (child : DNode)
    (rest : List (String × String × FPKind × DNode))
    (members : List (String × Json)) (h : jsonLookup members pn = none) :
    parsePlans ((pn, fn, .required, child) :: rest) members =
      .error (.keyErr ("missing required property `" ++ pn
        ++ "` from JSON object: " ++ Json.render (.obj members))) := by
  unfold parsePlans
  rw [List.mapM_cons]
  simp only [parseFieldWith, h]
  rfl

/-- C4 counterexample: a named tuple with the single field
`value: Optional[int]` is deserialized by `NamedTupleDeserializer`, which
wraps every field in `RequiredFieldDeserializer`; parsing `{}` therefore
raises the missing-required-property error instead of yielding `None` — in
contrast to the identical field on a dataclass, where the missing key does
yield `None`. -/
theorem claim_C4_namedtuple_counterexample :
    createDeserializer (.cls "NTOpt" none true false false false
        [("value", .noDflt, .genUnion [.pInt, .pNone])]) =
      .ok (.namedTupleDes "NTOpt"
        [("value", "value", .required,
          .unionDes [("int", .intDes), ("None", .noneDes)])]) ∧
    parseNode (.namedTupleDes "NTOpt"
        [("value", "value", .required,
          .unionDes [("int", .intDes), ("None", .noneDes)])]) (.obj []) =
      .error (.keyErr "missing required property `value` from JSON object: {}") ∧
    createDeserializer (.cls "DCOpt" none false false false true
        [("value", .noDflt, .genUnion [.pInt, .pNone])]) =
      .ok (.dataclassDes "DCOpt" [("value", "value", .optionalF, .intDes)]) ∧
    parseNode (.dataclassDes "DCOpt" [("value", "value", .optionalF, .intDes)])
      (.obj []) = .ok (.vRecord "DCOpt" [("value", .vNone)]) := by
  refine ⟨?_, ?_, ?_, ?_⟩
  · rw [createDeserializer.eq_def]
    dsimp only
    simp [createDeserializer, List.mapM, List.mapM.loop, Except.map,
      PyType.typeName, PyType.typeNameList]
    rfl
  · rw [parseNode_namedTupleDes, parsePlans_required_missing "value" "value"
      (.unionDes [("int", .intDes), ("None", .noneDes)]) [] [] rfl]
    rfl
  · rw [createDeserializer.eq_def]
    dsimp only
    simp [createDeserializer, List.mapM, List.mapM.loop, Except.map,
      PyType.isOptionalTy, PyType.unwrapOptionalTy, PyType.isNoneType]
    rfl
  · rw [parseNode_dataclassDes]
    simp [parsePlans, parseFieldWith, jsonGet, jsonLookup, unassignedNames,
      List.mapM, List.mapM.loop, Except.bind, Except.map]

/-- C4 as amended: (i) serializing a record field whose runtime value is
`None` produces no key for that field, identically for the dataclass,
typed-named-tuple and annotated-class serializers (dropping the null field's
plan leaves the output unchanged); (ii) for dataclass (and annotated-class)
deserialization, an object lacking the key of an optional field yields
`None`, and lacking the key of a defaulted field yields the declared default
(or the factory's value); but (iii) named-tuple deserialization wraps every
field — optional or not — in a required-field deserializer, so (iv) a
missing key there raises the missing-required-property error instead of
yielding `None`. -/
theorem claim_C4_record_null_conventions :
    (∀ (fields1 fields2 : List (String × String × SNode)) (fn pn : String)
       (child : SNode) (vals : List (String × PyValue)) (cname rn : String),
       jsonLookupValue vals fn = some .vNone →
       generateNode (.dataclassSer cname (fields1 ++ (fn, pn, child) :: fields2))
           (.vRecord rn vals) =
         generateNode (.dataclassSer cname (fields1 ++ fields2)) (.vRecord rn vals) ∧
       generateNode (.typedNamedTupleSer cname (fields1 ++ (fn, pn, child) :: fields2))
           (.vRecord rn vals) =
         generateNode (.typedNamedTupleSer cname (fields1 ++ fields2)) (.vRecord rn vals) ∧
       generateNode (.typedClassSer cname (fields1 ++ (fn, pn, child) :: fields2))
           (.vRecord rn vals) =
         generateNode (.typedClassSer cname (fields1 ++ fields2)) (.vRecord rn vals)) ∧
    (∀ (cname fn : String) (child : DNode) (dv : PyValue),
       parseNode (.dataclassDes cname [(fn, fn, .optionalF, child)]) (.obj []) =
         .ok (.vRecord cname [(fn, .vNone)]) ∧
       parseNode (.dataclassDes cname [(fn, fn, .dflt dv, child)]) (.obj []) =
         .ok (.vRecord cname [(fn, dv)]) ∧
       parseNode (.dataclassDes cname [(fn, fn, .dfltFactory dv, child)]) (.obj []) =
         .ok (.vRecord cname [(fn, dv)])) ∧
    (∀ (name : String) (toJ fromJ dc : Bool)
       (hints : List (String × DfltSpec × PyType)) (r : DNode),
       createDeserializer (.cls name none true toJ fromJ dc hints) = .ok r →
       ∃ plans, r = .namedTupleDes name plans ∧
         ∀ p ∈ plans, p.2.2.1 = FPKind.required) ∧
    (∀ (cname fn pn : String) (child : DNode)
       (rest : List (String × String × FPKind × DNode))
       (members : List (String × Json)),
       jsonLookup members pn = none →
       parseNode (.namedTupleDes cname ((pn, fn, .required, child) :: rest))
           (.obj members) =
         .error (.keyErr ("missing required property `" ++ pn
           ++ "` from JSON object: " ++ Json.render (.obj members)))) := by
  refine ⟨?_, ?_, ?_, ?_⟩
  · intro fields1 fields2 fn pn child vals cname rn h
    refine ⟨?_, ?_, ?_⟩
    · rw [generateNode_dataclassSer, generateNode_dataclassSer,
        generatePlans_null_field _ _ _ _ _ _ h]
    · rw [generateNode_typedNamedTupleSer, generateNode_typedNamedTupleSer,
        generatePlans_null_field _ _ _ _ _ _ h]
    · rw [generateNode_typedClassSer, generateNode_typedClassSer,
        generatePlans_null_field _ _ _ _ _ _ h]
  · intro cname fn child dv
    refine ⟨?_, ?_, ?_⟩ <;>
      (rw [parseNode_dataclassDes]
       simp [parsePlans, parseFieldWith, jsonGet, jsonLookup, unassignedNames,
         List.mapM, List.mapM.loop, Except.bind, Except.map])
  · intro name toJ fromJ dc hints r hr
    rw [createDeserializer.eq_def] at hr
    dsimp only at hr
    simp only [if_true] at hr
    obtain ⟨ps, hmap, hb⟩ := exceptMap_ok _ _ _ hr
    refine ⟨ps, hb, ?_⟩
    intro p hp
    obtain ⟨x, _, hfx⟩ := mapM_ok_forall _ _ _ hmap p hp
    obtain ⟨d, _, hd⟩ := exceptMap_ok _ _ _ hfx
    rw [hd]
  · intro cname fn pn child rest members h
    rw [parseNode_namedTupleDes, parsePlans_required_missing fn pn child rest members h]
    rfl

/-- C4 witness at concrete single-field records: the null field `x` is
omitted from the serialized object; the dataclass optional/default fields
fill in `None` / `5` on a missing key; the named tuple with an optional
field builds only required plans and fails on the missing key. -/
theorem claim_C4_record_null_conventions_witness :
    (generateNode (.dataclassSer "C" ([] ++ ("x", "x", .intSer) :: []))
         (.vRecord "C" [("x", .vNone)]) =
       generateNode (.dataclassSer "C" ([] ++ []))
         (.vRecord "C" [("x", .vNone)])) ∧
    parseNode (.dataclassDes "C" [("value", "value", .optionalF, .intDes)])
      (.obj []) = .ok (.vRecord "C" [("value", .vNone)]) ∧
    (∃ plans, DNode.namedTupleDes "NTOpt"
        [("value", "value", .required,
          .unionDes [("int", .intDes), ("None", .noneDes)])] =
        .namedTupleDes "NTOpt" plans ∧
      ∀ p ∈ plans, p.2.2.1 = FPKind.required) ∧
    parseNode (.namedTupleDes "NTOpt"
        [("value", "value", .required, .intDes)]) (.obj []) =
      .error (.keyErr ("missing required property `value`"
        ++ " from JSON object: " ++ Json.render (.obj []))) :=
  ⟨(claim_C4_record_null_conventions.1 [] [] "x" "x" .intSer
      [("x", .vNone)] "C" "C" rfl).1,
   (claim_C4_record_null_conventions.2.1 "C" "value" .intDes (.vInt 5)).1,
   claim_C4_record_null_conventions.2.2.1 "NTOpt" false false false
     [("value", .noDflt, .genUnion [.pInt, .pNone])] _
     (by rw [createDeserializer.eq_def]
         dsimp only
         simp [createDeserializer, List.mapM, List.mapM.loop, Except.map,
           PyType.typeName, PyType.typeNameList]
         rfl),
   claim_C4_record_null_conventions.2.2.2 "NTOpt" "value" "value" .intDes []
     [] rfl⟩

end StrongTyping

namespace StrongTyping

/-! ## Record round trip (claim C1)

The typing relation `RT` captures the values the round-trip claim ranges
over: a value of a record type whose field values observe the null
conventions of the codec — a non-defaulted field never holds `None`, and a
defaulted field holding `None` has `None` as its declared default (otherwise
the omitted property resurrects the default instead of the stored `None`,
the C1 counterexample).  `DynTy` singles out the types whose values the
dynamic `UnionSerializer` dispatch serializes to the same wire form as the
static serializer, so an `Optional[T]` field may hold any well-typed
non-null `T` value. -/

/-- Types whose dynamic (runtime-dispatched) serialization agrees with their
static serializer: the JSON-primitive types and lists thereof. -/
inductive DynTy : PyType → Prop
  | dBool : DynTy .pBool
  | dInt : DynTy .pInt
  | dStr : DynTy .pStr
  | dList {t : PyType} : DynTy t → DynTy (.genList t)

mutual

/-- Well-typedness of a runtime value at a type, restricted to the shapes
the round-trip theorem covers: primitives, typed lists, and dataclass
records with pairwise distinct field names whose field values observe the
codec's null conventions. -/
inductive RT : PyType → PyValue → Prop
  | rBool (b : Bool) : RT .pBool (.vBool b)
  | rInt (n : Int) : RT .pInt (.vInt n)
  | rStr (s : String) : RT .pStr (.vStr s)
  | rList {t : PyType} {items : List PyValue} :
      (∀ v ∈ items, RT t v) → RT (.genList t) (.vList items)
  | rRecord (cname : String) {hints : List (String × DfltSpec × PyType)}
      {vals : List (String × PyValue)} :
      (hints.map (fun h => h.1)).Nodup →
      RTFields hints vals →
      RT (.cls cname none false false false true hints) (.vRecord cname vals)

/-- Field-wise well-typedness of a record's field assignment against its
resolved hints, in declaration order. -/
inductive RTFields :
    List (String × DfltSpec × PyType) → List (String × PyValue) → Prop
  | nil : RTFields [] []
  | cons (n : String) (d : DfltSpec) (ty : PyType) (v : PyValue)
      {hints : List (String × DfltSpec × PyType)}
      {vals : List (String × PyValue)} :
      RTFieldVal d ty v → RTFields hints vals →
      RTFields ((n, d, ty) :: hints) ((n, v) :: vals)

/-- Admissible value of a single field: `None` only when the declared
default is `None`; a non-null dynamically serializable value for an
`Optional` field; or a plainly well-typed value. -/
inductive RTFieldVal : DfltSpec → PyType → PyValue → Prop
  | fNullVal (ty : PyType) : RTFieldVal (.dVal .vNone) ty .vNone
  | fNullFac (ty : PyType) : RTFieldVal (.dFac .vNone) ty .vNone
  | fOpt {t : PyType} {v : PyValue} (d : DfltSpec) :
      DynTy t → RT t v → v ≠ .vNone →
      RTFieldVal d (.genUnion [t, .pNone]) v
  | fPlain {ty : PyType} {v : PyValue} (d : DfltSpec) :
      RT ty v → RTFieldVal d ty v

end

end StrongTyping

namespace StrongTyping

/-- The round-trip property at a type and value: whenever both codec
constructions succeed, serialization produces a non-null JSON value that
parses back to the original. -/
def Round (T : PyType) (v : PyValue) : Prop :=
  ∀ sn dn, createSerializer T = .ok sn → createDeserializer T = .ok dn →
    ∃ j, generateNode sn v = .ok j ∧ j ≠ .null ∧ parseNode dn j = .ok v

theorem rt_ne_none {ty : PyType} {v : PyValue} (h : RT ty v) : v ≠ .vNone := by
  cases h <;> simp

theorem rt_not_optional {ty : PyType} {v : PyValue} (h : RT ty v) :
    ty.isOptionalTy = false := by
  cases h <;> rfl

theorem dynTy_not_none {t : PyType} (h : DynTy t) : t.isNoneType = false := by
  cases h <;> rfl

theorem unwrap_opt_pair {t : PyType} (h : t.isNoneType = false) :
    PyType.unwrapOptionalTy (.genUnion [t, .pNone]) = t := by
  have h2 : PyType.isNoneType .pNone = true := rfl
  simp [PyType.unwrapOptionalTy, List.filter, h, h2]

theorem isOpt_pair (t : PyType) :
    PyType.isOptionalTy (.genUnion [t, .pNone]) = true := by
  simp [PyType.isOptionalTy, PyType.isNoneType]

theorem createSerializer_genUnion (ms : List PyType) :
    createSerializer (.genUnion ms) = .ok .unionSer := by
  rw [createSerializer.eq_def]

theorem createSerializer_genList (t : PyType) :
    createSerializer (.genList t) =
      (createSerializer t).map .typedListSer := by
  rw [createSerializer.eq_def]

theorem createDeserializer_genList (t : PyType) :
    createDeserializer (.genList t) =
      (createDeserializer t).map (.listDes (PyType.typeName t)) := by
  rw [createDeserializer.eq_def]

theorem createSerializer_dataclass (name : String)
    (hints : List (String × DfltSpec × PyType)) :
    createSerializer (.cls name none false false false true hints) =
      (hints.mapM (fun h =>
        (createSerializer h.2.2).map
          (fun sn => (h.1, fieldToProperty h.1, sn)))).map
        (.dataclassSer name) := by
  rw [createSerializer.eq_def]
  dsimp only
  rw [attach_mapM hints (fun h =>
    (createSerializer h.2.2).map (fun sn => (h.1, fieldToProperty h.1, sn)))]
  rfl

theorem createDeserializer_dataclass (name : String)
    (hints : List (String × DfltSpec × PyType)) :
    createDeserializer (.cls name none false false false true hints) =
      (hints.mapM (fun h =>
        (createDeserializer
            (if h.2.2.isOptionalTy then h.2.2.unwrapOptionalTy else h.2.2)).map
          (fun child =>
            (fieldToProperty h.1, h.1,
             (match h.2.1 with
              | .dVal v => FPKind.dflt v
              | .dFac v => FPKind.dfltFactory v
              | .noDflt =>
                  if h.2.2.isOptionalTy then FPKind.optionalF
                  else FPKind.required),
             child)))).map (.dataclassDes name) := by
  rw [createDeserializer.eq_def]
  dsimp only
  exact congrArg (Except.map (DNode.dataclassDes name)) (attach_mapM hints
    (fun h =>
      (createDeserializer
          (if h.2.2.isOptionalTy then h.2.2.unwrapOptionalTy else h.2.2)).map
        (fun child =>
          (fieldToProperty h.1, h.1,
           (match h.2.1 with
            | .dVal v => FPKind.dflt v
            | .dFac v => FPKind.dfltFactory v
            | .noDflt =>
                if h.2.2.isOptionalTy then FPKind.optionalF
                else FPKind.required),
           child))))

theorem generateNode_unionSer (v : PyValue) :
    generateNode .unionSer v = serializeDyn v := by
  rw [generateNode.eq_def]

theorem generateNode_typedListSer (child : SNode) (items : List PyValue) :
    generateNode (.typedListSer child) (.vList items) =
      (items.mapM (generateNode child)).map .arr := by
  rw [generateNode.eq_def]
  dsimp only
  rw [attach_mapM items (generateNode child)]

theorem parseNode_listDes (nm : String) (child : DNode) (items : List Json) :
    parseNode (.listDes nm child) (.arr items) =
      (items.mapM (parseNode child)).map .vList := by
  rw [parseNode.eq_def]
  dsimp only
  rw [attach_mapM items (parseNode child)]

theorem serializeDyn_vList (items : List PyValue) :
    serializeDyn (.vList items) = (items.mapM serializeDyn).map .arr := by
  rw [serializeDyn.eq_def]
  dsimp only
  rw [attach_mapM items serializeDyn]

theorem mapM_round {α β E : Type} (f : α → Except E β) (g : β → Except E α)
    (l : List α) (h : ∀ x ∈ l, ∃ y, f x = .ok y ∧ g y = .ok x) :
    ∃ ys, l.mapM f = .ok ys ∧ ys.mapM g = .ok l := by
  induction l with
  | nil => exact ⟨[], rfl, rfl⟩
  | cons a l ih =>
      obtain ⟨y, hfy, hgy⟩ := h a (List.mem_cons_self a l)
      obtain ⟨ys, hmf, hmg⟩ := ih (fun x hx => h x (List.mem_cons_of_mem a hx))
      refine ⟨y :: ys, ?_, ?_⟩
      · rw [List.mapM_cons, hfy, hmf]; rfl
      · rw [List.mapM_cons, hgy, hmg]; rfl


theorem mapM_cons_ok_inv {E α β : Type} {f : α → Except E β} {a : α}
    {l : List α} {ys : List β} (h : (a :: l).mapM f = .ok ys) :
    ∃ y ys', f a = .ok y ∧ l.mapM f = .ok ys' ∧ ys = y :: ys' := by
  rw [List.mapM_cons] at h
  cases ha : f a with
  | error e => rw [ha] at h; cases h
  | ok b =>
      rw [ha] at h
      cases hl : l.mapM f with
      | error e => rw [hl] at h; cases h
      | ok bs =>
          rw [hl] at h
          have h' : (Except.ok (b :: bs) : Except E (List β)) = .ok ys := h
          exact ⟨b, bs, rfl, rfl, (Except.ok.inj h').symm⟩

theorem mapM_ok_mem_src {E α β : Type} (f : α → Except E β) :
    ∀ (l : List α) (ys : List β), l.mapM f = .ok ys →
      ∀ x ∈ l, ∃ y ∈ ys, f x = .ok y := by
  intro l
  induction l with
  | nil => intro ys h x hx; simp at hx
  | cons a l ih =>
      intro ys h x hx
      obtain ⟨y, ys', ha, hl, rfl⟩ := mapM_cons_ok_inv h
      rcases List.mem_cons.mp hx with rfl | hx'
      · exact ⟨y, List.mem_cons_self y ys', ha⟩
      · obtain ⟨z, hz, hfz⟩ := ih ys' hl x hx'
        exact ⟨z, List.mem_cons_of_mem y hz, hfz⟩

theorem jsonLookup_eq_none_of_forall (l : List (String × Json)) (key : String)
    (h : ∀ e ∈ l, e.1 ≠ key) : jsonLookup l key = none := by
  induction l with
  | nil => rfl
  | cons e es ih =>
      obtain ⟨k, j⟩ := e
      simp only [jsonLookup]
      rw [if_neg (h (k, j) (List.mem_cons_self _ _))]
      exact ih (fun x hx => h x (List.mem_cons_of_mem _ hx))

theorem reduceOptionConsNone {α : Type} (l : List (Option α)) :
    (none :: l).reduceOption = l.reduceOption := by
  simp [List.reduceOption]

theorem reduceOptionConsSome {α : Type} (a : α) (l : List (Option α)) :
    (some a :: l).reduceOption = a :: l.reduceOption := by
  simp [List.reduceOption]

theorem contains_of_mem {l : List String} {a : String} (h : a ∈ l) :
    l.contains a = true := by
  induction l with
  | nil => cases h
  | cons b bs ih =>
      rcases List.mem_cons.mp h with rfl | h'
      · simp [List.contains_cons]
      · simp only [List.contains_cons, ih h', Bool.or_true]

theorem generatePlans_congr :
    ∀ (fields : List (String × String × SNode))
      (vals1 vals2 : List (String × PyValue)),
      (∀ f ∈ fields, jsonLookupValue vals1 f.1 = jsonLookupValue vals2 f.1) →
      generatePlans fields vals1 = generatePlans fields vals2 := by
  intro fields
  induction fields with
  | nil => intro v1 v2 _; rfl
  | cons f fs ih =>
      intro v1 v2 h
      have htail := ih v1 v2 (fun g hg => h g (List.mem_cons_of_mem f hg))
      simp only [generatePlans, List.mapM_cons] at htail ⊢
      rw [h f (List.mem_cons_self f fs), htail]

theorem generatePlans_cons_null (f : String × String × SNode)
    (fs : List (String × String × SNode)) (vals : List (String × PyValue))
    (hl : jsonLookupValue vals f.1 = some PyValue.vNone) :
    generatePlans (f :: fs) vals =
      (generatePlans fs vals).bind (fun gs => .ok (none :: gs)) := by
  simp only [generatePlans, List.mapM_cons, hl]
  rfl

theorem generatePlans_cons_some_val (f : String × String × SNode)
    (fs : List (String × String × SNode)) (vals : List (String × PyValue))
    (w : PyValue) (hl : jsonLookupValue vals f.1 = some w)
    (hwn : w ≠ .vNone) :
    generatePlans (f :: fs) vals =
      ((generateNode f.2.2 w).map (fun j => some (f.2.1, j))).bind
        (fun g => (generatePlans fs vals).bind (fun gs => .ok (g :: gs))) := by
  simp only [generatePlans, List.mapM_cons, hl]
  cases w <;> first | rfl | exact absurd rfl hwn

theorem parsePlans_cons_ok (p : String × String × FPKind × DNode)
    (ps : List (String × String × FPKind × DNode))
    (members : List (String × Json)) (pv : PyValue)
    (h : parseFieldWith (fun v => parseNode p.2.2.2 v) p.1 p.2.2.1 members =
      .ok pv) :
    parsePlans (p :: ps) members =
      (parsePlans ps members).bind (fun fvs => .ok ((p.2.1, pv) :: fvs)) := by
  simp only [parsePlans, List.mapM_cons, h]
  rfl

theorem parseFieldWith_present (child : Json → Except JsonError PyValue)
    (pn : String) (kind : FPKind) (props : List (String × Json)) (j : Json)
    (hl : jsonLookup props pn = some j) (hnn : j ≠ .null) :
    parseFieldWith child pn kind props = child j := by
  have hg : jsonGet props pn = j := by simp [jsonGet, hl]
  cases kind with
  | required => simp [parseFieldWith, hl]
  | optionalF => simp only [parseFieldWith, hg]
  | dflt dv => simp only [parseFieldWith, hg]
  | dfltFactory dv => simp only [parseFieldWith, hg]

theorem parseFieldWith_absent (child : Json → Except JsonError PyValue)
    (pn : String) (props : List (String × Json))
    (hl : jsonLookup props pn = none) :
    parseFieldWith child pn .optionalF props = .ok .vNone ∧
    (∀ dv, parseFieldWith child pn (.dflt dv) props = .ok dv) ∧
    (∀ dv, parseFieldWith child pn (.dfltFactory dv) props = .ok dv) := by
  have hg : jsonGet props pn = .null := by simp [jsonGet, hl]
  refine ⟨?_, fun dv => ?_, fun dv => ?_⟩ <;> simp [parseFieldWith, hg]

theorem createSerializer_pBool : createSerializer .pBool = .ok .boolSer := by
  rw [createSerializer.eq_def]

theorem createSerializer_pInt : createSerializer .pInt = .ok .intSer := by
  rw [createSerializer.eq_def]

theorem createSerializer_pStr : createSerializer .pStr = .ok .strSer := by
  rw [createSerializer.eq_def]

theorem createDeserializer_pBool : createDeserializer .pBool = .ok .boolDes := by
  rw [createDeserializer.eq_def]

theorem createDeserializer_pInt : createDeserializer .pInt = .ok .intDes := by
  rw [createDeserializer.eq_def]

theorem createDeserializer_pStr : createDeserializer .pStr = .ok .strDes := by
  rw [createDeserializer.eq_def]

theorem serializeDyn_vBool (b : Bool) :
    serializeDyn (.vBool b) = .ok (.bool b) := by
  rw [serializeDyn.eq_def]

theorem serializeDyn_vInt (m : Int) :
    serializeDyn (.vInt m) = .ok (.num m) := by
  rw [serializeDyn.eq_def]

theorem serializeDyn_vStr (s : String) :
    serializeDyn (.vStr s) = .ok (.str s) := by
  rw [serializeDyn.eq_def]

theorem generateNode_boolSer (b : Bool) :
    generateNode .boolSer (.vBool b) = .ok (.bool b) := by
  rw [generateNode.eq_def]

theorem generateNode_intSer (m : Int) :
    generateNode .intSer (.vInt m) = .ok (.num m) := by
  rw [generateNode.eq_def]

theorem generateNode_strSer (s : String) :
    generateNode .strSer (.vStr s) = .ok (.str s) := by
  rw [generateNode.eq_def]

theorem parseNode_boolDes (b : Bool) :
    parseNode .boolDes (.bool b) = .ok (.vBool b) := by
  rw [parseNode.eq_def]

theorem parseNode_intDes_num (m : Int) :
    parseNode .intDes (.num m) = .ok (.vInt m) := by
  rw [parseNode.eq_def]

theorem parseNode_strDes (s : String) :
    parseNode .strDes (.str s) = .ok (.vStr s) := by
  rw [parseNode.eq_def]

theorem dyn_round {t : PyType} (hd : DynTy t) :
    ∀ (v : PyValue), RT t v → ∀ dn, createDeserializer t = .ok dn →
      ∃ j, serializeDyn v = .ok j ∧ j ≠ .null ∧ parseNode dn j = .ok v := by
  induction hd with
  | dBool =>
      intro v hv dn hdn
      cases hv with
      | rBool b =>
          rw [createDeserializer_pBool] at hdn
          cases hdn
          exact ⟨.bool b, serializeDyn_vBool b, by simp, parseNode_boolDes b⟩
  | dInt =>
      intro v hv dn hdn
      cases hv with
      | rInt m =>
          rw [createDeserializer_pInt] at hdn
          cases hdn
          exact ⟨.num m, serializeDyn_vInt m, by simp, parseNode_intDes_num m⟩
  | dStr =>
      intro v hv dn hdn
      cases hv with
      | rStr s =>
          rw [createDeserializer_pStr] at hdn
          cases hdn
          exact ⟨.str s, serializeDyn_vStr s, by simp, parseNode_strDes s⟩
  | dList hdt ih =>
      intro v hv dn hdn
      cases hv with
      | rList hmem =>
          rw [createDeserializer_genList] at hdn
          obtain ⟨dnt, hdnt, rfl⟩ := exceptMap_ok _ _ _ hdn
          rename_i t' items
          obtain ⟨js, hmf, hmg⟩ := mapM_round serializeDyn (parseNode dnt) items
            (fun x hx => by
              obtain ⟨j, hj, _, hp⟩ := ih x (hmem x hx) dnt hdnt
              exact ⟨j, hj, hp⟩)
          refine ⟨.arr js, ?_, by simp, ?_⟩
          · rw [serializeDyn_vList, hmf]; rfl
          · rw [parseNode_listDes, hmg]; rfl

theorem fields_phase {fuel : Nat}
    (ih : ∀ (ty : PyType) (w : PyValue), sizeOf w ≤ fuel → RT ty w →
      Round ty w) :
    ∀ (hints : List (String × DfltSpec × PyType))
      (vals : List (String × PyValue))
      (fields : List (String × String × SNode))
      (plans : List (String × String × FPKind × DNode)),
      RTFields hints vals →
      (hints.map (fun h => h.1)).Nodup →
      (∀ nm w, (nm, w) ∈ vals → sizeOf w ≤ fuel) →
      hints.mapM (fun h => (createSerializer h.2.2).map
        (fun sn => (h.1, fieldToProperty h.1, sn))) = .ok fields →
      hints.mapM (fun h =>
        (createDeserializer (if h.2.2.isOptionalTy then h.2.2.unwrapOptionalTy
            else h.2.2)).map
          (fun child => (fieldToProperty h.1, h.1,
            (match h.2.1 with
             | .dVal v => FPKind.dflt v
             | .dFac v => FPKind.dfltFactory v
             | .noDflt => if h.2.2.isOptionalTy then FPKind.optionalF
                 else FPKind.required), child))) = .ok plans →
      ∃ gl, generatePlans fields vals = .ok gl ∧
        (∀ e ∈ gl.reduceOption, e.1 ∈ hints.map (fun h => h.1)) ∧
        (∀ props : List (String × Json),
          (∀ nm ∈ hints.map (fun h => h.1),
            jsonLookup props nm = jsonLookup gl.reduceOption nm) →
          parsePlans plans props = .ok vals) := by
  intro hints
  induction hints with
  | nil =>
      intro vals fields plans hf _ _ hser hdes
      cases hf
      have hser' : (Except.ok ([] : List (String × String × SNode)) :
          Except CtorErr _) = .ok fields := hser
      cases hser'
      have hdes' : (Except.ok ([] : List (String × String × FPKind × DNode)) :
          Except CtorErr _) = .ok plans := hdes
      cases hdes'
      exact ⟨[], rfl, by simp, fun props _ => rfl⟩
  | cons hd hs ihh =>
      obtain ⟨n, d, ty⟩ := hd
      intro vals fields plans hf hnd hsz hser hdes
      simp only [fieldToProperty] at hser hdes
      cases hf with
      | cons _ _ _ w hfv htl =>
        rename_i vs
        obtain ⟨fe, fields', hserhd, hsertl, rfl⟩ := mapM_cons_ok_inv hser
        obtain ⟨snF, hsnF, rfl⟩ := exceptMap_ok _ _ _ hserhd
        obtain ⟨pe, plans', hdeshd, hdestl, rfl⟩ := mapM_cons_ok_inv hdes
        obtain ⟨child, hchild, rfl⟩ := exceptMap_ok _ _ _ hdeshd
        rw [List.map_cons] at hnd
        have hnn := (List.nodup_cons.mp hnd).1
        have hnd' := (List.nodup_cons.mp hnd).2
        have hsz' : ∀ nm w', (nm, w') ∈ vs → sizeOf w' ≤ fuel :=
          fun nm w' hw => hsz nm w' (List.mem_cons_of_mem _ hw)
        obtain ⟨gl', hgen', hnames', hparse'⟩ :=
          ihh vs fields' plans' htl hnd' hsz' hsertl hdestl
        have hfnames : ∀ f ∈ fields', f.1 ∈ hs.map (fun h => h.1) := by
          intro f hfmem
          obtain ⟨h0, hh0, hfh0⟩ := mapM_ok_forall _ hs fields' hsertl f hfmem
          obtain ⟨s0, _, hfe⟩ := exceptMap_ok _ _ _ hfh0
          rw [hfe]
          exact List.mem_map.mpr ⟨h0, hh0, rfl⟩
        have hglift : generatePlans fields' ((n, w) :: vs) = .ok gl' := by
          rw [generatePlans_congr fields' ((n, w) :: vs) vs (fun f hfmem => by
            have hne : ¬ (n = f.1) := fun he => hnn (he ▸ hfnames f hfmem)
            simp [jsonLookupValue, hne])]
          exact hgen'
        have hlookhead : jsonLookupValue ((n, w) :: vs) n = some w := by
          simp [jsonLookupValue]
        have hmemhead : n ∈ ((n, d, ty) :: hs).map (fun h => h.1) := by simp
        have hmemtail : ∀ nm ∈ hs.map (fun h => h.1),
            nm ∈ ((n, d, ty) :: hs).map (fun h => h.1) := by
          intro nm hnm
          rw [List.map_cons]
          exact List.mem_cons_of_mem _ hnm
        have htailNone : ∀ props : List (String × Json),
            (∀ nm ∈ ((n, d, ty) :: hs).map (fun h => h.1),
              jsonLookup props nm =
                jsonLookup ((none : Option (String × Json)) :: gl').reduceOption nm) →
            ∀ nm ∈ hs.map (fun h => h.1),
              jsonLookup props nm = jsonLookup gl'.reduceOption nm := by
          intro props hagree nm hnm
          have h1 := hagree nm (hmemtail nm hnm)
          rw [reduceOptionConsNone] at h1
          exact h1
        have htailSome : ∀ (props : List (String × Json)) (j : Json),
            (∀ nm ∈ ((n, d, ty) :: hs).map (fun h => h.1),
              jsonLookup props nm =
                jsonLookup (some (n, j) :: gl').reduceOption nm) →
            ∀ nm ∈ hs.map (fun h => h.1),
              jsonLookup props nm = jsonLookup gl'.reduceOption nm := by
          intro props j hagree nm hnm
          have h1 := hagree nm (hmemtail nm hnm)
          rw [reduceOptionConsSome] at h1
          have hne : ¬ (n = nm) := fun he => hnn (he ▸ hnm)
          rw [h1]
          simp [jsonLookup, hne]
        have hlookNone : ∀ props : List (String × Json),
            (∀ nm ∈ ((n, d, ty) :: hs).map (fun h => h.1),
              jsonLookup props nm =
                jsonLookup ((none : Option (String × Json)) :: gl').reduceOption nm) →
            jsonLookup props n = none := by
          intro props hagree
          have h1 := hagree n hmemhead
          rw [reduceOptionConsNone] at h1
          rw [h1]
          exact jsonLookup_eq_none_of_forall _ _
            (fun e he hek => hnn (hek ▸ hnames' e he))
        have hlookSome : ∀ (props : List (String × Json)) (j : Json),
            (∀ nm ∈ ((n, d, ty) :: hs).map (fun h => h.1),
              jsonLookup props nm =
                jsonLookup (some (n, j) :: gl').reduceOption nm) →
            jsonLookup props n = some j := by
          intro props j hagree
          have h1 := hagree n hmemhead
          rw [reduceOptionConsSome] at h1
          rw [h1]
          simp [jsonLookup]
        have hnamesNone : ∀ e ∈ ((none : Option (String × Json)) :: gl').reduceOption,
            e.1 ∈ ((n, d, ty) :: hs).map (fun h => h.1) := by
          intro e he
          rw [reduceOptionConsNone] at he
          exact hmemtail e.1 (hnames' e he)
        have hnamesSome : ∀ (j : Json), ∀ e ∈ (some (n, j) :: gl').reduceOption,
            e.1 ∈ ((n, d, ty) :: hs).map (fun h => h.1) := by
          intro j e he
          rw [reduceOptionConsSome] at he
          rcases List.mem_cons.mp he with rfl | he'
          · exact hmemhead
          · exact hmemtail e.1 (hnames' e he')
        cases hfv with
        | fNullVal =>
            refine ⟨none :: gl', ?_, hnamesNone, ?_⟩
            · rw [generatePlans_cons_null (n, n, snF) fields'
                ((n, PyValue.vNone) :: vs) hlookhead, hglift]
              rfl
            · intro props hagree
              have hlp := hlookNone props hagree
              have habs := (parseFieldWith_absent
                (fun v => parseNode child v) n props hlp).2.1 PyValue.vNone
              rw [parsePlans_cons_ok (n, n, FPKind.dflt PyValue.vNone, child)
                plans' props PyValue.vNone habs]
              rw [hparse' props (htailNone props hagree)]
              rfl
        | fNullFac =>
            refine ⟨none :: gl', ?_, hnamesNone, ?_⟩
            · rw [generatePlans_cons_null (n, n, snF) fields'
                ((n, PyValue.vNone) :: vs) hlookhead, hglift]
              rfl
            · intro props hagree
              have hlp := hlookNone props hagree
              have habs := (parseFieldWith_absent
                (fun v => parseNode child v) n props hlp).2.2 PyValue.vNone
              rw [parsePlans_cons_ok (n, n, FPKind.dfltFactory PyValue.vNone, child)
                plans' props PyValue.vNone habs]
              rw [hparse' props (htailNone props hagree)]
              rfl
        | fOpt d hdyn hrt hwn =>
            rename_i t
            rw [createSerializer_genUnion] at hsnF
            cases hsnF
            have hteq : (if (PyType.genUnion [t, PyType.pNone]).isOptionalTy then
                (PyType.genUnion [t, PyType.pNone]).unwrapOptionalTy
                else PyType.genUnion [t, PyType.pNone]) = t := by
              simp [isOpt_pair, unwrap_opt_pair (dynTy_not_none hdyn)]
            rw [hteq] at hchild
            obtain ⟨j, hsj, hjnn, hpj⟩ := dyn_round hdyn w hrt child hchild
            have hgj : generateNode SNode.unionSer w = .ok j := by
              rw [generateNode_unionSer]; exact hsj
            refine ⟨some (n, j) :: gl', ?_, hnamesSome j, ?_⟩
            · rw [generatePlans_cons_some_val (n, n, SNode.unionSer) fields'
                ((n, w) :: vs) w hlookhead hwn]
              rw [hgj, hglift]
              rfl
            · intro props hagree
              have h2 := hlookSome props j hagree
              have hpf := parseFieldWith_present (fun v => parseNode child v)
                n (match d with
                   | DfltSpec.dVal v => FPKind.dflt v
                   | DfltSpec.dFac v => FPKind.dfltFactory v
                   | DfltSpec.noDflt =>
                       if (PyType.genUnion [t, PyType.pNone]).isOptionalTy then
                         FPKind.optionalF
                       else FPKind.required) props j h2 hjnn
              rw [parsePlans_cons_ok (n, n, (match d with
                   | DfltSpec.dVal v => FPKind.dflt v
                   | DfltSpec.dFac v => FPKind.dfltFactory v
                   | DfltSpec.noDflt =>
                       if (PyType.genUnion [t, PyType.pNone]).isOptionalTy then
                         FPKind.optionalF
                       else FPKind.required), child)
                plans' props w (hpf.trans hpj)]
              rw [hparse' props (htailSome props j hagree)]
              rfl
        | fPlain d hrt =>
            have hwn := rt_ne_none hrt
            have hopt := rt_not_optional hrt
            have hchild' : createDeserializer ty = .ok child := by
              rw [hopt] at hchild
              simpa using hchild
            obtain ⟨j, hgj, hjnn, hpj⟩ := ih ty w
              (hsz n w (List.mem_cons_self _ _)) hrt snF child hsnF hchild'
            refine ⟨some (n, j) :: gl', ?_, hnamesSome j, ?_⟩
            · rw [generatePlans_cons_some_val (n, n, snF) fields'
                ((n, w) :: vs) w hlookhead hwn]
              rw [hgj, hglift]
              rfl
            · intro props hagree
              have h2 := hlookSome props j hagree
              have hpf := parseFieldWith_present (fun v => parseNode child v)
                n (match d with
                   | DfltSpec.dVal v => FPKind.dflt v
                   | DfltSpec.dFac v => FPKind.dfltFactory v
                   | DfltSpec.noDflt =>
                       if ty.isOptionalTy then FPKind.optionalF
                       else FPKind.required) props j h2 hjnn
              rw [parsePlans_cons_ok (n, n, (match d with
                   | DfltSpec.dVal v => FPKind.dflt v
                   | DfltSpec.dFac v => FPKind.dfltFactory v
                   | DfltSpec.noDflt =>
                       if ty.isOptionalTy then FPKind.optionalF
                       else FPKind.required), child)
                plans' props w (hpf.trans hpj)]
              rw [hparse' props (htailSome props j hagree)]
              rfl


theorem roundtrip_fuel :
    ∀ (fuel : Nat) (v : PyValue) (T : PyType),
      sizeOf v ≤ fuel → RT T v → Round T v := by
  intro fuel
  induction fuel with
  | zero =>
      intro v T hle h
      exfalso
      have hpos : 0 < sizeOf v := by cases v <;> simp_arith
      omega
  | succ m ih =>
      intro v T hle h
      cases h with
      | rBool b =>
          intro sn dn hs hd
          rw [createSerializer_pBool] at hs
          cases hs
          rw [createDeserializer_pBool] at hd
          cases hd
          exact ⟨.bool b, generateNode_boolSer b, by simp, parseNode_boolDes b⟩
      | rInt k =>
          intro sn dn hs hd
          rw [createSerializer_pInt] at hs
          cases hs
          rw [createDeserializer_pInt] at hd
          cases hd
          exact ⟨.num k, generateNode_intSer k, by simp, parseNode_intDes_num k⟩
      | rStr s =>
          intro sn dn hs hd
          rw [createSerializer_pStr] at hs
          cases hs
          rw [createDeserializer_pStr] at hd
          cases hd
          exact ⟨.str s, generateNode_strSer s, by simp, parseNode_strDes s⟩
      | rList hmem =>
          rename_i t items
          intro sn dn hs hd
          rw [createSerializer_genList] at hs
          obtain ⟨snt, hsnt, rfl⟩ := exceptMap_ok _ _ _ hs
          rw [createDeserializer_genList] at hd
          obtain ⟨dnt, hdnt, rfl⟩ := exceptMap_ok _ _ _ hd
          obtain ⟨js, hmf, hmg⟩ := mapM_round (generateNode snt) (parseNode dnt)
            items (fun x hx => by
              have hsx : sizeOf x < sizeOf items := List.sizeOf_lt_of_mem hx
              have hsv : sizeOf (PyValue.vList items) = 1 + sizeOf items := by
                simp
              obtain ⟨j, hj, _, hp⟩ := ih x t (by omega) (hmem x hx) snt dnt
                hsnt hdnt
              exact ⟨j, hj, hp⟩)
          refine ⟨.arr js, ?_, by simp, ?_⟩
          · rw [generateNode_typedListSer, hmf]; rfl
          · rw [parseNode_listDes, hmg]; rfl
      | rRecord cname hnd hf =>
          rename_i hints vals
          intro sn dn hs hd
          rw [createSerializer_dataclass] at hs
          obtain ⟨fields, hser, rfl⟩ := exceptMap_ok _ _ _ hs
          rw [createDeserializer_dataclass] at hd
          obtain ⟨plans, hdes, rfl⟩ := exceptMap_ok _ _ _ hd
          have hsz : ∀ nm w, (nm, w) ∈ vals → sizeOf w ≤ m := by
            intro nm w hw
            have h1 := List.sizeOf_lt_of_mem hw
            have h2 : sizeOf (PyValue.vRecord cname vals) =
              1 + sizeOf cname + sizeOf vals := by simp
            have h3 : sizeOf (nm, w) = 1 + sizeOf nm + sizeOf w := by simp
            omega
          have ihf : ∀ (ty : PyType) (w : PyValue), sizeOf w ≤ m → RT ty w →
              Round ty w := fun ty w hw hrt => ih w ty hw hrt
          obtain ⟨gl, hgen, hnames, hparse⟩ :=
            fields_phase ihf hints vals fields plans hf hnd hsz hser hdes
          have hplanmem : ∀ nm ∈ hints.map (fun h => h.1),
              nm ∈ plans.map (fun p => p.1) := by
            intro nm hnm
            obtain ⟨h0, hh0, h0eq⟩ := List.mem_map.mp hnm
            obtain ⟨p, hp, hfp⟩ := mapM_ok_mem_src _ hints plans hdes h0 hh0
            obtain ⟨c, _, hpe⟩ := exceptMap_ok _ _ _ hfp
            have hp1 : p.1 = nm := by rw [hpe]; exact h0eq
            exact List.mem_map.mpr ⟨p, hp, hp1⟩
          have hue : unassignedNames plans gl.reduceOption = [] := by
            simp only [unassignedNames]
            rw [List.filter_eq_nil]
            intro a ha
            obtain ⟨e, he, rfl⟩ := List.mem_map.mp ha
            obtain ⟨p, hp, hp1⟩ := List.mem_map.mp (hplanmem e.1 (hnames e he))
            obtain ⟨p1, p2, p3, p4⟩ := p
            simp only at hp1
            subst hp1
            simp
            exact ⟨p2, p3, p4, hp⟩
          refine ⟨.obj gl.reduceOption, ?_, by simp, ?_⟩
          · rw [generateNode_dataclassSer, hgen]
            rfl
          · rw [parseNode_dataclassDes, hparse gl.reduceOption (fun nm _ => rfl),
              hue]
            rfl


/-- C1 counterexample: for the dataclass `R` with the single field
`x: Optional[int] = 5`, the instance with `x = None` satisfies the claim's
guard (its only field is defaulted, so no non-defaulted field holds null),
yet the round trip does not return it: serialization omits the null-valued
property entirely, and deserialization of the resulting empty object restores
the declared default `5` rather than `None`. -/
theorem claim_C1_roundtrip_counterexample :
    createSerializer (.cls "R" none false false false true
        [("x", .dVal (.vInt 5), .genUnion [.pInt, .pNone])]) =
      .ok (.dataclassSer "R" [("x", "x", .unionSer)]) ∧
    createDeserializer (.cls "R" none false false false true
        [("x", .dVal (.vInt 5), .genUnion [.pInt, .pNone])]) =
      .ok (.dataclassDes "R" [("x", "x", .dflt (.vInt 5), .intDes)]) ∧
    generateNode (.dataclassSer "R" [("x", "x", .unionSer)])
      (.vRecord "R" [("x", .vNone)]) = .ok (.obj []) ∧
    parseNode (.dataclassDes "R" [("x", "x", .dflt (.vInt 5), .intDes)])
      (.obj []) = .ok (.vRecord "R" [("x", .vInt 5)]) ∧
    PyValue.vRecord "R" [("x", .vInt 5)] ≠ .vRecord "R" [("x", .vNone)] := by
  refine ⟨?_, ?_, ?_, ?_, by simp⟩
  · rw [createSerializer_dataclass, List.mapM_cons]
    dsimp only
    rw [createSerializer_genUnion]
    rfl
  · rw [createDeserializer_dataclass, List.mapM_cons]
    dsimp only
    rw [show (if (PyType.genUnion [.pInt, .pNone]).isOptionalTy then
        (PyType.genUnion [.pInt, .pNone]).unwrapOptionalTy
        else PyType.genUnion [.pInt, .pNone]) = PyType.pInt from by
      simp [isOpt_pair,
        unwrap_opt_pair (show PyType.pInt.isNoneType = false from rfl)]]
    rw [createDeserializer_pInt]
    rfl
  · rw [generateNode_dataclassSer]
    rw [generatePlans_cons_null ("x", "x", SNode.unionSer) []
      [("x", PyValue.vNone)] (by simp [jsonLookupValue])]
    rfl
  · rw [parseNode_dataclassDes]
    rw [parsePlans_cons_ok ("x", "x", FPKind.dflt (PyValue.vInt 5),
      DNode.intDes) [] [] (PyValue.vInt 5) rfl]
    rfl

/-- C1 (amended): for a record type whose fields are well-typed in the sense
of `RT` — no non-defaulted field holds null, and a defaulted field holding
null has a null default — serializing a value of the type and parsing the
result with the deserializer built for the same type yields the original
value.  (`RT` covers the primitive field types, lists, optional fields of
dynamically serializable type, and nested dataclass records with distinct
field names.) -/
theorem claim_C1_record_roundtrip (T : PyType) (v : PyValue) (h : RT T v)
    (sn : SNode) (dn : DNode)
    (hs : createSerializer T = .ok sn) (hd : createDeserializer T = .ok dn) :
    ∃ j, generateNode sn v = .ok j ∧ parseNode dn j = .ok v := by
  obtain ⟨j, hg, _, hp⟩ :=
    roundtrip_fuel (sizeOf v) v T (Nat.le_refl _) h sn dn hs hd
  exact ⟨j, hg, hp⟩

/-- C1 witness: the round trip at the dataclass `W` with the single required
field `x: int`, on the instance with `x = 7`. -/
theorem claim_C1_record_roundtrip_witness :
    RT (.cls "W" none false false false true [("x", .noDflt, .pInt)])
      (.vRecord "W" [("x", .vInt 7)]) ∧
    createSerializer (.cls "W" none false false false true
      [("x", .noDflt, .pInt)]) = .ok (.dataclassSer "W" [("x", "x", .intSer)]) ∧
    createDeserializer (.cls "W" none false false false true
      [("x", .noDflt, .pInt)]) =
      .ok (.dataclassDes "W" [("x", "x", .required, .intDes)]) ∧
    ∃ j, generateNode (.dataclassSer "W" [("x", "x", .intSer)])
        (.vRecord "W" [("x", .vInt 7)]) = .ok j ∧
      parseNode (.dataclassDes "W" [("x", "x", .required, .intDes)]) j =
        .ok (.vRecord "W" [("x", .vInt 7)]) := by
  have hrt : RT (.cls "W" none false false false true [("x", .noDflt, .pInt)])
      (.vRecord "W" [("x", .vInt 7)]) :=
    RT.rRecord "W" (by simp)
      (RTFields.cons "x" .noDflt .pInt (.vInt 7)
        (RTFieldVal.fPlain _ (RT.rInt 7)) RTFields.nil)
  have hs : createSerializer (.cls "W" none false false false true
      [("x", .noDflt, .pInt)]) =
      .ok (.dataclassSer "W" [("x", "x", .intSer)]) := by
    rw [createSerializer_dataclass, List.mapM_cons]
    dsimp only
    rw [createSerializer_pInt]
    rfl
  have hd : createDeserializer (.cls "W" none false false false true
      [("x", .noDflt, .pInt)]) =
      .ok (.dataclassDes "W" [("x", "x", .required, .intDes)]) := by
    rw [createDeserializer_dataclass, List.mapM_cons]
    dsimp only
    rw [show (if PyType.pInt.isOptionalTy then PyType.pInt.unwrapOptionalTy
        else PyType.pInt) = PyType.pInt from rfl]
    rw [createDeserializer_pInt]
    rfl
  exact ⟨hrt, hs, hd, claim_C1_record_roundtrip _ _ hrt _ _ hs hd⟩

end StrongTyping
